import Mathlib

/-!
# VolumetricRenderer: photon volume renderer and texture slice renderer

A shallow embedding of `src/Renderer/PhotonVolumeObject.cpp` and
`src/Renderer/TextureSliceObject.cpp`.

Conventions of the embedding.

* GLSL and C++ floating point values are exact rationals (`ℚ`): rounding is
  not modelled.  The one place where the code relies on IEEE infinities, the
  slab test `RayAABBIntersect` fed with `1 / rayDirNorm`, is modelled over
  `XRat`, the rationals extended with `+∞`, `-∞` and NaN.
* GLSL built-ins that are not rational functions (`sqrt`, `sin`, `cos`,
  `floatBitsToUint`) are a parameter `Builtins` of the shader.
* `uint` arithmetic is arithmetic of naturals modulo `2 ^ 32`.
* The host objects are records of the members the code reads and writes; an
  OpenGL call is modelled by its effect on the colour attachment of the
  off-screen frame buffer.  Contents that OpenGL leaves undefined (a texture
  allocated with a null data pointer) are an explicit argument.
* Division of rationals by zero yields 0, where a float division yields an
  infinity or NaN; apart from `1 / rayDirNorm` this concerns only degenerate
  inputs (a zero direction, a zero gradient above a negative threshold, a
  volume of height or depth 0).
* The declared type of `currentSampleNumber` is not part of the sources; it is
  an unbounded integer here.  The conversion `(int)currentSampleNumber` that
  the display pass applies is `intCast`, the reduction to the 32-bit `int`;
  `RenderWithIntCast` is `Render` with that conversion kept, and the two
  agree while the count is below `2^31`.
-/

set_option linter.unusedVariables false

namespace VolumetricRenderer

/-! ## Vectors -/

/-- GLSL `vec2`. -/
structure Vec2 where
  x : ℚ
  y : ℚ
deriving DecidableEq

/-- GLSL `vec3`. -/
@[ext]
structure Vec3 where
  x : ℚ
  y : ℚ
  z : ℚ
deriving DecidableEq

/-- GLSL `vec4`. -/
@[ext]
structure Vec4 where
  x : ℚ
  y : ℚ
  z : ℚ
  w : ℚ
deriving DecidableEq

namespace Vec3

instance : Zero Vec3 := ⟨⟨0, 0, 0⟩⟩
instance : Add Vec3 := ⟨fun a b => ⟨a.x + b.x, a.y + b.y, a.z + b.z⟩⟩
instance : Sub Vec3 := ⟨fun a b => ⟨a.x - b.x, a.y - b.y, a.z - b.z⟩⟩
instance : Neg Vec3 := ⟨fun a => ⟨-a.x, -a.y, -a.z⟩⟩
/-- Componentwise product, as GLSL `*` on two `vec3`. -/
instance : Mul Vec3 := ⟨fun a b => ⟨a.x * b.x, a.y * b.y, a.z * b.z⟩⟩

/-- The product `v * s` of a vector and a scalar. -/
def scale (v : Vec3) (s : ℚ) : Vec3 := ⟨v.x * s, v.y * s, v.z * s⟩

/-- The quotient `v / s` of a vector and a scalar. -/
def divScalar (v : Vec3) (s : ℚ) : Vec3 := ⟨v.x / s, v.y / s, v.z / s⟩

/-- GLSL `dot`. -/
def dot (a b : Vec3) : ℚ := a.x * b.x + a.y * b.y + a.z * b.z

@[simp] theorem zero_x : (0 : Vec3).x = 0 := rfl
@[simp] theorem zero_y : (0 : Vec3).y = 0 := rfl
@[simp] theorem zero_z : (0 : Vec3).z = 0 := rfl
@[simp] theorem add_x (a b : Vec3) : (a + b).x = a.x + b.x := rfl
@[simp] theorem add_y (a b : Vec3) : (a + b).y = a.y + b.y := rfl
@[simp] theorem add_z (a b : Vec3) : (a + b).z = a.z + b.z := rfl
@[simp] theorem sub_x (a b : Vec3) : (a - b).x = a.x - b.x := rfl
@[simp] theorem sub_y (a b : Vec3) : (a - b).y = a.y - b.y := rfl
@[simp] theorem sub_z (a b : Vec3) : (a - b).z = a.z - b.z := rfl
@[simp] theorem neg_x (a : Vec3) : (-a).x = -a.x := rfl
@[simp] theorem neg_y (a : Vec3) : (-a).y = -a.y := rfl
@[simp] theorem neg_z (a : Vec3) : (-a).z = -a.z := rfl
@[simp] theorem mul_x (a b : Vec3) : (a * b).x = a.x * b.x := rfl
@[simp] theorem mul_y (a b : Vec3) : (a * b).y = a.y * b.y := rfl
@[simp] theorem mul_z (a b : Vec3) : (a * b).z = a.z * b.z := rfl
@[simp] theorem scale_x (a : Vec3) (s : ℚ) : (a.scale s).x = a.x * s := rfl
@[simp] theorem scale_y (a : Vec3) (s : ℚ) : (a.scale s).y = a.y * s := rfl
@[simp] theorem scale_z (a : Vec3) (s : ℚ) : (a.scale s).z = a.z * s := rfl
@[simp] theorem divScalar_x (a : Vec3) (s : ℚ) : (a.divScalar s).x = a.x / s := rfl
@[simp] theorem divScalar_y (a : Vec3) (s : ℚ) : (a.divScalar s).y = a.y / s := rfl
@[simp] theorem divScalar_z (a : Vec3) (s : ℚ) : (a.divScalar s).z = a.z / s := rfl

instance : AddCommMonoid Vec3 where
  add_assoc a b c := by ext <;> simp [add_assoc]
  zero_add a := by ext <;> simp
  add_zero a := by ext <;> simp
  add_comm a b := by ext <;> simp [add_comm]
  nsmul := nsmulRec

end Vec3

/-- The `xyz` swizzle of a `vec4`. -/
def Vec4.xyz (v : Vec4) : Vec3 := ⟨v.x, v.y, v.z⟩

/-! ## Host side: `PhotonVolumeObject` -/

/-- A pixel of the off-screen target, by column and row. -/
abbrev Pixel := ℕ × ℕ

/-- The contents of the `GL_RGB32F` colour attachment: one colour per pixel. -/
abbrev Image := Pixel → Vec3

/-- What the display pass draws: one RGBA colour per pixel. -/
abbrev Display := Pixel → Vec4

/-- A `glm::mat4`. -/
abbrev Mat4 := Fin 4 → Fin 4 → ℚ

/-- The members of `Texture3D` that the renderers read. -/
structure Texture3D where
  textureId : ℕ
  width : ℕ
  height : ℕ
  depth : ℕ
deriving DecidableEq

/-- A `Texture1D` or `TextureCube`, known to the renderers by its id only. -/
structure TextureHandle where
  textureId : ℕ
deriving DecidableEq

/-- The ways a call can fail. -/
inductive Fault where
  /-- A member function was called through a null pointer. -/
  | nullDereference
deriving DecidableEq

/-- The members of `PhotonVolumeObject`, with `visible` of its base class and
the contents of the texture `frameBufferColorBuffer`.  A pointer member is
`none` when it is `NULL`. -/
structure PhotonVolumeObject where
  visible : Bool
  targetWidth : ℤ
  targetHeight : ℤ
  clearFlag : Bool
  currentSampleNumber : ℤ
  randomNumberBindingPoint : ℤ
  maxBounce : ℤ
  sampleCount : ℤ
  brightness : ℚ
  contrast : ℚ
  gradientThreshold : ℚ
  backFaceCulling : Bool
  volumeTexture : Option Texture3D
  gradientTexture : Option Texture3D
  lutTexture : Option TextureHandle
  envMapTexture : Option TextureHandle
  frameBufferColorBuffer : Image

namespace PhotonVolumeObject

/-- The constructor `PhotonVolumeObject::PhotonVolumeObject()`: `raw` is the
object before the constructor body runs; the members the body does not assign
keep the value they have in `raw`. -/
def construct (raw : PhotonVolumeObject) : PhotonVolumeObject :=
  { raw with
    targetWidth := 800
    targetHeight := 600
    clearFlag := false
    currentSampleNumber := 0
    randomNumberBindingPoint := 0
    maxBounce := 20
    sampleCount := 100
    brightness := 0
    contrast := 1
    gradientThreshold := 6 / 100
    backFaceCulling := true }

/-- The member function `Init()`.  `glTexImage2D` is called with a null data
pointer, which allocates the colour attachment and leaves its contents
undefined: `undefinedTexels` is what the texture then holds. -/
def Init (self : PhotonVolumeObject) (undefinedTexels : Image) : PhotonVolumeObject :=
  { self with
    volumeTexture := none
    lutTexture := none
    envMapTexture := none
    targetWidth := 800
    targetHeight := 600
    frameBufferColorBuffer := undefinedTexels }

/-- The member function `SetVolumeTexture`. -/
def SetVolumeTexture (self : PhotonVolumeObject) (vt : Option Texture3D) : PhotonVolumeObject :=
  { self with volumeTexture := vt }

/-- The fragment shader `displayFragSrc` at one pixel: `samples` is the texel of
`frameBufferTexture` under the pixel. -/
def displayMain (frameBufferTexel : Vec3) (sampleNumber : ℤ) : Vec4 :=
  let samples : Vec3 := (frameBufferTexel.scale 1).divScalar (sampleNumber : ℚ)
  ⟨samples.x, samples.y, samples.z, 1⟩

/-- What a call of `Render` leaves behind: the object, and the image drawn by
the display pass when there was one. -/
structure RenderResult where
  self : PhotonVolumeObject
  displayed : Option Display

/-- The member function `Render(viewMatrix, projectionMatrix)`.

`estimate` is the colour that the photon fragment shader writes at each pixel
of the full-screen quad in this call; it is added to the colour attachment by
the blend function `(GL_ONE, GL_ONE)`.  `glClear` clears to the default clear
colour, zero.  `volumeTexture->Width()` is evaluated before the test
`volumeTexture != NULL`.  The count is handed to the display shader without
the conversion `(int)`, which is the identity while the count is below `2^31`;
`RenderWithIntCast` keeps the conversion. -/
def Render (self : PhotonVolumeObject) (viewMatrix projectionMatrix : Mat4)
    (estimate : Image) : Except Fault RenderResult :=
  if !self.visible then
    .ok { self := self, displayed := none }
  else
    -- clear frame buffer if needed
    let self : PhotonVolumeObject :=
      if self.clearFlag then
        { self with frameBufferColorBuffer := fun _ => 0, clearFlag := false }
      else self
    -- update 3d texture volume
    match self.volumeTexture with
    | none => .error Fault.nullDereference
    | some _ =>
      -- draw elements, with additive blending
      let self : PhotonVolumeObject :=
        { self with
          frameBufferColorBuffer := fun p => estimate p + self.frameBufferColorBuffer p }
      -- increment sample num
      let self : PhotonVolumeObject :=
        { self with currentSampleNumber := self.currentSampleNumber + 1 }
      -- draw into the display image
      .ok { self := self
            displayed := some fun p =>
              displayMain (self.frameBufferColorBuffer p) self.currentSampleNumber }

/-- The conversion `(int)x` of an integer to the 32-bit `int`, in two-complement
representation: the value in `[-2^31, 2^31)` that differs from `x` by a multiple of
`2^32`. -/
def intCast (x : ℤ) : ℤ := (x + 2 ^ 31) % 2 ^ 32 - 2 ^ 31

/-- The member function `Render(viewMatrix, projectionMatrix)` with the
conversion of `glUniform1i(sampleNumberLocation, (int)currentSampleNumber)`
kept: the display shader divides by `(int)currentSampleNumber`.  The rest is
as in `Render`, which hands the count over as it is; the two agree while the
count is below `2^31`. -/
def RenderWithIntCast (self : PhotonVolumeObject) (viewMatrix projectionMatrix : Mat4)
    (estimate : Image) : Except Fault RenderResult :=
  if !self.visible then
    .ok { self := self, displayed := none }
  else
    -- clear frame buffer if needed
    let self : PhotonVolumeObject :=
      if self.clearFlag then
        { self with frameBufferColorBuffer := fun _ => 0, clearFlag := false }
      else self
    -- update 3d texture volume
    match self.volumeTexture with
    | none => .error Fault.nullDereference
    | some _ =>
      -- draw elements, with additive blending
      let self : PhotonVolumeObject :=
        { self with
          frameBufferColorBuffer := fun p => estimate p + self.frameBufferColorBuffer p }
      -- increment sample num
      let self : PhotonVolumeObject :=
        { self with currentSampleNumber := self.currentSampleNumber + 1 }
      -- draw into the display image
      .ok { self := self
            displayed := some fun p =>
              displayMain (self.frameBufferColorBuffer p) (intCast self.currentSampleNumber) }

/-- The member function `ClearPhotonRender(W, H)`.  When the size changes the
colour attachment is reallocated with a null data pointer and then holds
`undefinedTexels`. -/
def ClearPhotonRender (self : PhotonVolumeObject) (W H : ℤ) (undefinedTexels : Image) :
    PhotonVolumeObject :=
  if !self.visible then self
  else
    -- zero sample num
    let self : PhotonVolumeObject := { self with currentSampleNumber := 0 }
    -- reallocate frame buffer texture for size change
    let self : PhotonVolumeObject :=
      if W ≠ self.targetWidth ∨ H ≠ self.targetHeight then
        { self with
          targetWidth := W
          targetHeight := H
          frameBufferColorBuffer := undefinedTexels }
      else self
    -- clear frame buffer
    { self with clearFlag := true }

/-- The colour a `Render` call displayed at pixel `p`: `none` when the call
failed or had no display pass. -/
def displayedAt (r : Except Fault RenderResult) (p : Pixel) : Option Vec4 :=
  match r with
  | .ok { displayed := some d, .. } => some (d p)
  | _ => none

/-- The member function `SetGradientTexture`. -/
def SetGradientTexture (self : PhotonVolumeObject) (gt : Option Texture3D) :
    PhotonVolumeObject :=
  { self with gradientTexture := gt }

/-- The member function `SetLUTTexture`. -/
def SetLUTTexture (self : PhotonVolumeObject) (lt : Option TextureHandle) : PhotonVolumeObject :=
  { self with lutTexture := lt }

/-- The member function `SetEnvMap`. -/
def SetEnvMap (self : PhotonVolumeObject) (env : Option TextureHandle) : PhotonVolumeObject :=
  { self with envMapTexture := env }

/-- The member function `SetGradientThreshold`. -/
def SetGradientThreshold (self : PhotonVolumeObject) (gt : ℚ) : PhotonVolumeObject :=
  { self with gradientThreshold := gt }

/-- The member function `SetBackFaceCulling`. -/
def SetBackFaceCulling (self : PhotonVolumeObject) (cull : Bool) : PhotonVolumeObject :=
  { self with backFaceCulling := cull }

/-- The states a `PhotonVolumeObject` can be in: the constructor has run, and
then any sequence of `Init`, the setters, `Render` calls that returned,
`ClearPhotonRender` calls, and writes of the base class to `visible`. -/
inductive Reachable : PhotonVolumeObject → Prop where
  | construct (raw : PhotonVolumeObject) : Reachable (construct raw)
  | init (s : PhotonVolumeObject) (undefinedTexels : Image) :
      Reachable s → Reachable (Init s undefinedTexels)
  | setVolumeTexture (s : PhotonVolumeObject) (vt : Option Texture3D) :
      Reachable s → Reachable (SetVolumeTexture s vt)
  | setGradientTexture (s : PhotonVolumeObject) (gt : Option Texture3D) :
      Reachable s → Reachable (SetGradientTexture s gt)
  | setLUTTexture (s : PhotonVolumeObject) (lt : Option TextureHandle) :
      Reachable s → Reachable (SetLUTTexture s lt)
  | setEnvMap (s : PhotonVolumeObject) (env : Option TextureHandle) :
      Reachable s → Reachable (SetEnvMap s env)
  | setGradientThreshold (s : PhotonVolumeObject) (gt : ℚ) :
      Reachable s → Reachable (SetGradientThreshold s gt)
  | setBackFaceCulling (s : PhotonVolumeObject) (cull : Bool) :
      Reachable s → Reachable (SetBackFaceCulling s cull)
  | setVisible (s : PhotonVolumeObject) (v : Bool) :
      Reachable s → Reachable { s with visible := v }
  | render (s : PhotonVolumeObject) (V P : Mat4) (e : Image) (r : RenderResult) :
      Reachable s → Render s V P e = .ok r → Reachable r.self
  | clearPhotonRender (s : PhotonVolumeObject) (W H : ℤ) (undefinedTexels : Image) :
      Reachable s → Reachable (ClearPhotonRender s W H undefinedTexels)

end PhotonVolumeObject

/-! ## Host side: `TextureSliceObject` -/

/-- The members of `TextureSliceObject`, with `visible` of its base class. -/
structure TextureSliceObject where
  visible : Bool
  brightness : ℚ
  contrast : ℚ
  threshold : ℚ
  volumeTexture : Option Texture3D
  gradientTexture : Option Texture3D
  lutTexture : Option TextureHandle

namespace TextureSliceObject

/-- The constructor `TextureSliceObject::TextureSliceObject()`, on the object
`raw` as it is before the constructor body runs. -/
def construct (raw : TextureSliceObject) : TextureSliceObject :=
  { raw with brightness := 0, contrast := 1 }

/-- The member function `Init()`. -/
def Init (self : TextureSliceObject) : TextureSliceObject :=
  { self with volumeTexture := none, lutTexture := none }

/-- What one draw call of the slice renderer is given: the uniforms and the
texture names bound to units 0 and 1 (name 0 is the null texture). -/
structure SliceDraw where
  texDim : Vec3
  boundVolumeTexture : ℕ
  boundLutTexture : ℕ
  brightness : ℚ
  contrast : ℚ
  threshold : ℚ
deriving DecidableEq

/-- The member function `Render(viewMatrix, projectionMatrix)`: the draw call
it issues, or nothing when the object is not visible.
`volumeTexture->Width()` is evaluated before the test `volumeTexture != NULL`. -/
def Render (self : TextureSliceObject) (viewMatrix projectionMatrix : Mat4) :
    Except Fault (Option SliceDraw) :=
  if !self.visible then .ok none
  else
    -- update 3d texture
    match self.volumeTexture with
    | none => .error Fault.nullDereference
    | some vt =>
      let texDim : Vec3 := ⟨vt.width, vt.height, vt.depth⟩
      let boundVolumeTexture : ℕ :=
        match self.volumeTexture with
        | some t => t.textureId
        | none => 0
      -- update LUT texture
      let boundLutTexture : ℕ :=
        match self.lutTexture with
        | some t => t.textureId
        | none => 0
      .ok (some
        { texDim := texDim
          boundVolumeTexture := boundVolumeTexture
          boundLutTexture := boundLutTexture
          brightness := self.brightness
          contrast := self.contrast
          threshold := self.threshold })

/-- The member function `SetBrightness`. -/
def SetBrightness (self : TextureSliceObject) (b : ℚ) : TextureSliceObject :=
  let ammount : ℚ := 10
  { self with brightness := ammount * b / 100 }

/-- The member function `SetContrast`. -/
def SetContrast (self : TextureSliceObject) (c : ℚ) : TextureSliceObject :=
  let ammount : ℚ := 10
  if c < 0 then
    { self with contrast := 1 / (ammount * (-c / 100) + 1) }
  else
    { self with contrast := ammount * (c / 100) + 1 }

/-- The member function `SetThreshold`. -/
def SetThreshold (self : TextureSliceObject) (t : ℚ) : TextureSliceObject :=
  { self with threshold := t }

end TextureSliceObject

/-! ## The slice fragment shader -/

/-- GLSL `clamp(x, minVal, maxVal)`, which is `min(max(x, minVal), maxVal)`. -/
def clamp (x minVal maxVal : ℚ) : ℚ := min (max x minVal) maxVal

/-- The uniforms of the slice fragment shader; a sampler is the function from
texture coordinate to texel that `texture` computes. -/
structure SliceUniforms where
  volumeTexture : Vec3 → Vec4
  texDim : Vec3
  brightness : ℚ
  contrast : ℚ
  threshold : ℚ
  lutTexture : ℚ → Vec4

/-- The texture coordinate at which the slice fragment shader samples the
volume. -/
def sliceTexCoord (texDim : Vec3) (fragmentPosition : Vec4) : Vec3 :=
  let hasp := texDim.x / texDim.y
  let dasp := texDim.z / texDim.y
  fragmentPosition.xyz * ⟨1, 1, 1 / dasp⟩ + ⟨1 / 2, 1 / 2, 1 / 2⟩

/-- The function `main` of `TextureSliceObject::fragSrc`: the colour written
to `outputColor`, or `none` when the fragment is discarded. -/
def sliceMain (u : SliceUniforms) (fragmentPosition : Vec4) : Option Vec4 :=
  let col := u.volumeTexture (sliceTexCoord u.texDim fragmentPosition)
  if col.w ≤ 1 / 10000 then none
  else
    let c := clamp (u.contrast * col.x + u.brightness) 0 1
    let finalColor : Vec4 := if c > u.threshold then ⟨c, c, c, 1⟩ else ⟨0, 0, 0, 0⟩
    some finalColor

/-! ## Extended rationals, for the slab test -/

/-- A float value without rounding: a rational, an infinity or NaN. -/
inductive XRat where
  | fin (q : ℚ)
  | posInf
  | negInf
  | nan
deriving DecidableEq

namespace XRat

/-- The comparison `a < b`; false when an operand is NaN. -/
def lt : XRat → XRat → Bool
  | fin a, fin b => decide (a < b)
  | fin _, posInf => true
  | negInf, fin _ => true
  | negInf, posInf => true
  | _, _ => false

/-- The comparison `a >= b`; false when an operand is NaN. -/
def ge : XRat → XRat → Bool
  | fin a, fin b => decide (b ≤ a)
  | fin _, negInf => true
  | posInf, fin _ => true
  | posInf, posInf => true
  | posInf, negInf => true
  | negInf, negInf => true
  | _, _ => false

/-- GLSL `min(x, y)`: `y` if `y < x`, otherwise `x`. -/
def min (x y : XRat) : XRat := if lt y x then y else x

/-- GLSL `max(x, y)`: `y` if `x < y`, otherwise `x`. -/
def max (x y : XRat) : XRat := if lt x y then y else x

/-- The product of a finite value and an extended one. -/
def mulFin (a : ℚ) : XRat → XRat
  | fin b => fin (a * b)
  | posInf => if 0 < a then posInf else if a < 0 then negInf else nan
  | negInf => if 0 < a then negInf else if a < 0 then posInf else nan
  | nan => nan

/-- The quotient `1 / q` of floats; `1 / 0` is `+∞` (zero carries no sign here). -/
def recip (q : ℚ) : XRat := if q = 0 then posInf else fin (1 / q)

/-- The rational a finite value stands for (and 0 for the others). -/
def toRat : XRat → ℚ
  | fin q => q
  | _ => 0

end XRat

/-- A `vec3` whose components may be infinite or NaN. -/
structure XVec3 where
  x : XRat
  y : XRat
  z : XRat
deriving DecidableEq

/-! ## The photon fragment shader -/

/-- The struct `HitInfo`. -/
structure HitInfo where
  hit : Bool
  dist : XRat
deriving DecidableEq

/-- The constant `BIGNUM`, `1e10`. -/
def BIGNUM : ℚ := 10000000000

/-- The function `RayAABBIntersect`. -/
def RayAABBIntersect (rayOrig : Vec3) (rayDirInv : XVec3) (minaabb maxaabb : Vec3)
    (dist : ℚ) : HitInfo :=
  let t1 : XVec3 :=
    ⟨XRat.mulFin (minaabb.x - rayOrig.x) rayDirInv.x,
     XRat.mulFin (minaabb.y - rayOrig.y) rayDirInv.y,
     XRat.mulFin (minaabb.z - rayOrig.z) rayDirInv.z⟩
  let t2 : XVec3 :=
    ⟨XRat.mulFin (maxaabb.x - rayOrig.x) rayDirInv.x,
     XRat.mulFin (maxaabb.y - rayOrig.y) rayDirInv.y,
     XRat.mulFin (maxaabb.z - rayOrig.z) rayDirInv.z⟩
  let tmin := XRat.max (XRat.max (XRat.min t1.x t2.x) (XRat.min t1.y t2.y)) (XRat.min t1.z t2.z)
  let tmax := XRat.min (XRat.min (XRat.max t1.x t2.x) (XRat.max t1.y t2.y)) (XRat.max t1.z t2.z)
  { hit := XRat.ge tmax (XRat.max (XRat.fin 0) tmin) && XRat.lt tmin (XRat.fin dist)
    dist := tmin }

/-- The function `Hash(uint x)`, on 32-bit words. -/
def Hash (x : ℕ) : ℕ :=
  let x := (x + (x <<< 10) % 2 ^ 32) % 2 ^ 32
  let x := x ^^^ (x >>> 6)
  let x := (x + (x <<< 3) % 2 ^ 32) % 2 ^ 32
  let x := x ^^^ (x >>> 11)
  let x := (x + (x <<< 15) % 2 ^ 32) % 2 ^ 32
  x

/-- The function `Hash(uvec3 v)`. -/
def HashUvec3 (vx vy vz : ℕ) : ℕ := Hash (vx ^^^ Hash vy ^^^ Hash vz)

/-- GLSL `uintBitsToFloat`: the value of the IEEE 754 binary32 pattern `h`
(0 for the patterns of the infinities and NaN, which are no rationals). -/
def uintBitsToFloat (h : ℕ) : ℚ :=
  let sign : ℚ := if h / 2 ^ 31 % 2 = 1 then -1 else 1
  let e : ℕ := h / 2 ^ 23 % 256
  let m : ℕ := h % 2 ^ 23
  if e = 0 then sign * ((m : ℚ) / 2 ^ 23) * (2 : ℚ) ^ (-126 : ℤ)
  else if e = 255 then 0
  else sign * (1 + (m : ℚ) / 2 ^ 23) * (2 : ℚ) ^ ((e : ℤ) - 127)

/-- The GLSL built-in functions that are not rational functions. -/
structure Builtins where
  sqrt : ℚ → ℚ
  sin : ℚ → ℚ
  cos : ℚ → ℚ
  floatBitsToUint : ℚ → ℕ

/-- The function `Random(vec2 f, float seed)`. -/
def Random (B : Builtins) (f : Vec2) (seed : ℚ) : ℚ :=
  let mantissaMask : ℕ := 0x007FFFFF
  let one : ℕ := 0x3F800000
  let h := HashUvec3 (B.floatBitsToUint f.x % 2 ^ 32) (B.floatBitsToUint f.y % 2 ^ 32)
    (B.floatBitsToUint seed % 2 ^ 32)
  let h := h &&& mantissaMask
  let h := h ||| one
  let r2 := uintBitsToFloat h
  r2 - 1

/-- The function `Random(vec2 f, vec2 seed)`. -/
def RandomVec2 (B : Builtins) (f : Vec2) (seed : Vec2) : Vec2 :=
  ⟨Random B f seed.x, Random B f seed.y⟩

/-- The constant `PI`. -/
def PI : ℚ := 314159265359 / 100000000000

/-- GLSL `sign`. -/
def sign (x : ℚ) : ℚ := if 0 < x then 1 else if x < 0 then -1 else 0

/-- GLSL `length`. -/
def length (B : Builtins) (v : Vec3) : ℚ := B.sqrt (Vec3.dot v v)

/-- GLSL `normalize`. -/
def normalize (B : Builtins) (v : Vec3) : Vec3 := v.divScalar (length B v)

/-- The function `RandomUnitHemi`. -/
def RandomUnitHemi (B : Builtins) (randomVal : Vec2) (norm : Vec3) : Vec3 :=
  let a := (randomVal.x + 1) * PI
  let u := randomVal.y
  let u2 := u * u
  let sqrt1MinusU2 := B.sqrt (1 - u2)
  let x := sqrt1MinusU2 * B.cos a
  let y := sqrt1MinusU2 * B.sin a
  let z := u
  let rh : Vec3 := ⟨x, y, z⟩
  rh.scale (sign (Vec3.dot rh norm))

/-- The uniforms of the photon fragment shader; a sampler is the function from
texture coordinate to texel that `texture` computes. -/
structure PhotonUniforms where
  randomFloat0 : ℚ
  randomFloat1 : ℚ
  volumeTexture : Vec3 → Vec4
  gradientTexture : Vec3 → Vec4
  envMapTexture : Vec3 → Vec4
  texDim : Vec3
  brightness : ℚ
  contrast : ℚ
  gradientThreshold : ℚ
  backFaceCulling : ℤ
  lutTexture : ℚ → Vec4

/-- The inputs of one invocation of the photon fragment shader. -/
structure PhotonFragment where
  rayOrig : Vec3
  rayDir : Vec3
  fragCoord : Vec2

/-- The function `Fetch3DVolume`. -/
def Fetch3DVolume (u : PhotonUniforms) (position : Vec3) : Vec4 :=
  let hasp := u.texDim.x / u.texDim.y
  let dasp := u.texDim.z / u.texDim.y
  u.volumeTexture (position * ⟨1, 1, 1 / dasp⟩ + ⟨1 / 2, 1 / 2, 1 / 2⟩)

/-- The function `FetchGradient`. -/
def FetchGradient (u : PhotonUniforms) (position : Vec3) : Vec3 :=
  let hasp := u.texDim.x / u.texDim.y
  let dasp := u.texDim.z / u.texDim.y
  (u.gradientTexture (position * ⟨1, 1, 1 / dasp⟩ + ⟨1 / 2, 1 / 2, 1 / 2⟩)).xyz
    - ⟨1 / 2, 1 / 2, 1 / 2⟩

/-- The function `FetchEnvMap`. -/
def FetchEnvMap (u : PhotonUniforms) (dir : Vec3) : Vec4 := u.envMapTexture dir

/-- The local `stepSize` of `main`, `0.002f`. -/
def stepSize : ℚ := 2 / 1000

/-- The local `photonMarchCount` of `main`. -/
def photonMarchCount : ℕ := 800

/-- The local `sampleNumber` of `main`. -/
def sampleNumber : ℕ := 1

/-- The exit test of the march loop. -/
def outsideBox (photonPos : Vec3) : Bool :=
  decide (photonPos.x > 1 / 2 ∨ photonPos.y > 1 / 2 ∨ photonPos.z > 1 / 2 ∨
    photonPos.x < -1 / 2 ∨ photonPos.y < -1 / 2 ∨ photonPos.z < -1 / 2)

/-- The locals that the march loop updates. -/
structure MarchState where
  photonPos : Vec3
  photonDir : Vec3
  runningReflectanceFactor : Vec3
  finalColor : Vec3

/-- The surface test and bounce at the head of one iteration of the march loop
(the `if(gradientLen > gradientThreshold)` statement), for loop index `i` and
sample index `s`. -/
def bounce (B : Builtins) (u : PhotonUniforms) (fragCoord : Vec2) (s i : ℕ)
    (st : MarchState) : MarchState :=
  let gradient := FetchGradient u st.photonPos
  let gradientLen := length B gradient
  if gradientLen > u.gradientThreshold then
    let gradientNorm := normalize B gradient
    if Vec3.dot (-st.photonDir) gradientNorm > 0 ∨ ¬ (u.backFaceCulling ≠ 0) then
      let col := Fetch3DVolume u (st.photonPos + ((-gradientNorm).scale stepSize).scale 3)
      let surface := u.lutTexture col.x
      let surfacecol := surface.xyz
      let surfaceopacity := surface.w
      let randomSeedVec2 : Vec2 :=
        ⟨u.randomFloat0 * ((i * sampleNumber + s : ℕ) : ℚ)
            / ((sampleNumber * photonMarchCount : ℕ) : ℚ),
         u.randomFloat1 * ((s * photonMarchCount + i : ℕ) : ℚ)
            / ((sampleNumber * photonMarchCount : ℕ) : ℚ)⟩
      let r := RandomVec2 B fragCoord randomSeedVec2
      let newRayD := RandomUnitHemi B ⟨r.x * 2 - 1, r.y * 2 - 1⟩ gradientNorm
      let reflectanceFactor := surface.xyz.scale (max 0 (Vec3.dot newRayD gradientNorm))
      { st with
        runningReflectanceFactor := st.runningReflectanceFactor * reflectanceFactor
        photonDir := newRayD }
    else st
  else st

/-- The march loop `for(int i = 0; i < photonMarchCount; i++)` from index `i`
on, with `fuel = photonMarchCount - i` iterations left; the value is
`finalColor` when the loop is left. -/
def march (B : Builtins) (u : PhotonUniforms) (fragCoord : Vec2) (s : ℕ) :
    ℕ → ℕ → MarchState → Vec3
  | 0, _, st => st.finalColor
  | fuel + 1, i, st =>
    let st := bounce B u fragCoord s i st
    let st : MarchState := { st with photonPos := st.photonPos + st.photonDir.scale stepSize }
    if outsideBox st.photonPos then
      let backgroundTex := FetchEnvMap u st.photonDir
      let materialEmittance := backgroundTex.xyz
      st.finalColor + st.runningReflectanceFactor * materialEmittance
    else
      march B u fragCoord s fuel (i + 1) st

/-- The hit test at the head of `main`: `RayAABBIntersect` on the box
`[-0.5, 0.5]^3` with the reciprocal of the normalised direction. -/
def mainHit (B : Builtins) (inp : PhotonFragment) : HitInfo :=
  let rayDirNorm := normalize B inp.rayDir
  let rayDirInv : XVec3 :=
    ⟨XRat.recip rayDirNorm.x, XRat.recip rayDirNorm.y, XRat.recip rayDirNorm.z⟩
  RayAABBIntersect inp.rayOrig rayDirInv ⟨-1 / 2, -1 / 2, -1 / 2⟩ ⟨1 / 2, 1 / 2, 1 / 2⟩ BIGNUM

/-- The position at which the march of a hit ray starts. -/
def marchStart (B : Builtins) (inp : PhotonFragment) : Vec3 :=
  let rayDirNorm := normalize B inp.rayDir
  inp.rayOrig + rayDirNorm.scale
    ((mainHit B inp).dist.toRat + stepSize + Random B inp.fragCoord 1234 * stepSize)

/-- The function `main` of `PhotonVolumeObject::fragSrc`: the colour written
to `outputColor`.  The distance of a hit is finite whenever the normalised
direction is not the zero vector (`hit_dist_finite`). -/
def main (B : Builtins) (u : PhotonUniforms) (inp : PhotonFragment) : Vec4 :=
  let rayDirNorm := normalize B inp.rayDir
  let hit := mainHit B inp
  let sampleColor : Vec3 :=
    if hit.hit then
      (List.range sampleNumber).foldl
        (fun sampleColor s =>
          let st : MarchState :=
            { finalColor := 0
              runningReflectanceFactor := ⟨1, 1, 1⟩
              photonDir := rayDirNorm
              photonPos := marchStart B inp }
          sampleColor + march B u inp.fragCoord s photonMarchCount 0 st)
        0
    else
      let backgroundTex := FetchEnvMap u rayDirNorm
      backgroundTex.xyz
  let sampleColor := sampleColor.scale (1 / (sampleNumber : ℚ))
  ⟨sampleColor.x, sampleColor.y, sampleColor.z, 1⟩

/-- The point `p` lies in the closed box `[-0.5, 0.5]^3`. -/
def inClosedBox (p : Vec3) : Prop :=
  (-1 / 2 ≤ p.x ∧ p.x ≤ 1 / 2) ∧ (-1 / 2 ≤ p.y ∧ p.y ≤ 1 / 2) ∧ (-1 / 2 ≤ p.z ∧ p.z ≤ 1 / 2)

/-- The locals of `main` when the march loop of a hit ray is entered. -/
def marchInit (B : Builtins) (inp : PhotonFragment) : MarchState :=
  { finalColor := 0
    runningReflectanceFactor := ⟨1, 1, 1⟩
    photonDir := normalize B inp.rayDir
    photonPos := marchStart B inp }

/-- The iterations that the march loop executes from index `i` on, with
`fuel = photonMarchCount - i` iterations left: the list holds, for each
executed iteration, the locals after its step `photonPos += photonDir *
stepSize`; the iteration that passes the exit test is the last one. -/
def marchTrace (B : Builtins) (u : PhotonUniforms) (fragCoord : Vec2) (s : ℕ) :
    ℕ → ℕ → MarchState → List MarchState
  | 0, _, _ => []
  | fuel + 1, i, st =>
    let st := bounce B u fragCoord s i st
    let st : MarchState := { st with photonPos := st.photonPos + st.photonDir.scale stepSize }
    if outsideBox st.photonPos then [st]
    else st :: marchTrace B u fragCoord s fuel (i + 1) st

/-- A volume of 64 x 64 x 32 voxels, texture name 7. -/
def sampleVolume : Texture3D := ⟨7, 64, 64, 32⟩

/-- An image whose pixels all hold the colour `c`. -/
def constImage (c : Vec3) : Image := fun _ => c

/-- The memory of a `PhotonVolumeObject` before its constructor body runs, for
a visible object. -/
def rawObject : PhotonVolumeObject :=
  { visible := true
    targetWidth := 13
    targetHeight := 17
    clearFlag := true
    currentSampleNumber := 99
    randomNumberBindingPoint := 3
    maxBounce := 0
    sampleCount := 0
    brightness := 5
    contrast := 5
    gradientThreshold := 5
    backFaceCulling := false
    volumeTexture := none
    gradientTexture := none
    lutTexture := none
    envMapTexture := none
    frameBufferColorBuffer := constImage ⟨9, 9, 9⟩ }

/-- A renderer that was constructed and initialised, whose colour attachment
came up holding the colour (1, 1, 1) at every pixel. -/
def freshRenderer : PhotonVolumeObject :=
  PhotonVolumeObject.Init (PhotonVolumeObject.construct rawObject) (constImage ⟨1, 1, 1⟩)

/-- The renderer `freshRenderer` once a volume is bound to it. -/
def readyRenderer : PhotonVolumeObject :=
  PhotonVolumeObject.SetVolumeTexture freshRenderer (some sampleVolume)

/-- A renderer that has accumulated five samples and was then hidden. -/
def hiddenRenderer : PhotonVolumeObject :=
  { readyRenderer with visible := false, currentSampleNumber := 5 }

/-- The renderer `readyRenderer` after `2^31 - 1` samples were accumulated. -/
def agedRenderer : PhotonVolumeObject :=
  { readyRenderer with currentSampleNumber := 2147483647 }

/-- The renderer `readyRenderer` after `2^32 - 1` samples were accumulated. -/
def wrappedRenderer : PhotonVolumeObject :=
  { readyRenderer with currentSampleNumber := 4294967295 }

/-- The identity matrix. -/
def identityMatrix : Mat4 := fun i j => if i = j then 1 else 0

/-- The memory of a `TextureSliceObject` before its constructor body runs, for
a visible object. -/
def rawSlice : TextureSliceObject :=
  { visible := true
    brightness := 5
    contrast := 5
    threshold := 0
    volumeTexture := some sampleVolume
    gradientTexture := none
    lutTexture := none }

/-- A slice renderer that was constructed and initialised. -/
def freshSlice : TextureSliceObject :=
  TextureSliceObject.Init (TextureSliceObject.construct rawSlice)

/-- The binary32 encoding of a rational, by truncation (values too small are
flushed to zero, values too large become an infinity). -/
def encodeBinary32 (q : ℚ) : ℕ :=
  if q = 0 then 0
  else
    let s : ℕ := if q < 0 then 2 ^ 31 else 0
    let a : ℚ := |q|
    let e : ℤ := Int.log 2 a
    if e < -126 then s
    else if 127 < e then s + 255 * 2 ^ 23
    else s + (e + 127).toNat * 2 ^ 23 + ⌊(a / (2 : ℚ) ^ e - 1) * 2 ^ 23⌋₊

/-- One implementation of the built-ins: the rational square root, exact on
squares, and polynomial approximations of sine and cosine. -/
def refBuiltins : Builtins :=
  { sqrt := Rat.sqrt
    sin := fun x => x - x ^ 3 / 6 + x ^ 5 / 120
    cos := fun x => 1 - x ^ 2 / 2 + x ^ 4 / 24
    floatBitsToUint := encodeBinary32 }

/-- A scene without any surface under a uniform sky of colour `E`: the
gradient texture holds the encoding (1/2, 1/2, 1/2) of the zero gradient
everywhere and the environment map holds `E` in every direction. -/
def emptyScene (E : Vec3) : PhotonUniforms :=
  { randomFloat0 := 1 / 4
    randomFloat1 := 3 / 4
    volumeTexture := fun _ => ⟨0, 0, 0, 0⟩
    gradientTexture := fun _ => ⟨1 / 2, 1 / 2, 1 / 2, 0⟩
    envMapTexture := fun _ => ⟨E.x, E.y, E.z, 1⟩
    texDim := ⟨64, 64, 32⟩
    brightness := 0
    contrast := 1
    gradientThreshold := 6 / 100
    backFaceCulling := 1
    lutTexture := fun _ => ⟨1, 1, 1, 1⟩ }

/-- The fragment of the pixel centre (1/2, 1/2) whose ray starts at (2, 2, -2)
and runs along (0, 0, 1), past the box. -/
def missFragment : PhotonFragment :=
  { rayOrig := ⟨2, 2, -2⟩, rayDir := ⟨0, 0, 1⟩, fragCoord := ⟨1 / 2, 1 / 2⟩ }

/-- The fragment of the pixel centre (1/2, 1/2) whose ray runs along the unit
vector (23, 24, 24) / 41 through the centre of the box, starting two units
before it: its chord through the box has length 41 / 24, more than the
1.604 that 800 steps of 0.002 after the jittered start can cover. -/
def diagonalFragment : PhotonFragment :=
  { rayOrig := ⟨-46 / 41, -48 / 41, -48 / 41⟩
    rayDir := ⟨23 / 41, 24 / 41, 24 / 41⟩
    fragCoord := ⟨1 / 2, 1 / 2⟩ }

/-- Uniforms whose volume and gradient samplers return the texture coordinate
they are asked for (with alpha 1), for a volume of dimensions `texDim`. -/
def probeScene (texDim : Vec3) : PhotonUniforms :=
  { randomFloat0 := 1 / 4
    randomFloat1 := 3 / 4
    volumeTexture := fun c => ⟨c.x, c.y, c.z, 1⟩
    gradientTexture := fun c => ⟨c.x, c.y, c.z, 1⟩
    envMapTexture := fun _ => ⟨1, 1, 1, 1⟩
    texDim := texDim
    brightness := 0
    contrast := 1
    gradientThreshold := 6 / 100
    backFaceCulling := 1
    lutTexture := fun _ => ⟨1, 1, 1, 1⟩ }

/-- Built-ins that do not overshoot: a square root truncated to a multiple of
`2 ^ (-10)`, and approximations of sine and cosine that lie on the unit
circle. -/
def truncBuiltins : Builtins :=
  { sqrt := fun x => (Nat.sqrt ⌊x * 4 ^ 10⌋₊ : ℚ) / 2 ^ 10
    sin := fun a => a / (1 + a ^ 2 / 4)
    cos := fun a => (1 - a ^ 2 / 4) / (1 + a ^ 2 / 4)
    floatBitsToUint := encodeBinary32 }

/-- A scene that is surface everywhere: the gradient texture holds the
encoding (1/2, 1/2, 0) of the gradient (0, 0, -1/2), the LUT the colour
(1/2, 1/2, 1/2) and the environment map the colour (1, 1, 1). -/
def surfaceScene : PhotonUniforms :=
  { randomFloat0 := 1 / 4
    randomFloat1 := 3 / 4
    volumeTexture := fun _ => ⟨1 / 2, 0, 0, 1⟩
    gradientTexture := fun _ => ⟨1 / 2, 1 / 2, 0, 0⟩
    envMapTexture := fun _ => ⟨1, 1, 1, 1⟩
    texDim := ⟨64, 64, 32⟩
    brightness := 0
    contrast := 1
    gradientThreshold := 6 / 100
    backFaceCulling := 1
    lutTexture := fun _ => ⟨1 / 2, 1 / 2, 1 / 2, 1⟩ }

/-- The fragment of the pixel centre (1/2, 1/2) whose ray starts at (0, 0, -2)
and runs along (0, 0, 1), into the box. -/
def axisFragment : PhotonFragment :=
  { rayOrig := ⟨0, 0, -2⟩, rayDir := ⟨0, 0, 1⟩, fragCoord := ⟨1 / 2, 1 / 2⟩ }

/-- The locals of a march that stands on the face `z = -1/2` of the box and
runs along (0, 0, 1). -/
def entryState : MarchState :=
  { photonPos := ⟨0, 0, -1 / 2⟩
    photonDir := ⟨0, 0, 1⟩
    runningReflectanceFactor := ⟨1, 1, 1⟩
    finalColor := 0 }

/-! ## Theorems -/

namespace PhotonVolumeObject

/-- The state and the displayed image after one `Render` call on a visible
renderer with a volume bound. -/
theorem Render_ok (s : PhotonVolumeObject) (V P : Mat4) (e : Image) (t : Texture3D)
    (hvis : s.visible = true) (hvol : s.volumeTexture = some t) :
    ∃ r : RenderResult, Render s V P e = .ok r ∧
      r.self.visible = true ∧ r.self.volumeTexture = some t ∧
      r.self.clearFlag = false ∧
      r.self.targetWidth = s.targetWidth ∧ r.self.targetHeight = s.targetHeight ∧
      r.self.currentSampleNumber = s.currentSampleNumber + 1 ∧
      (∀ p, r.self.frameBufferColorBuffer p
          = e p + (if s.clearFlag = true then 0 else s.frameBufferColorBuffer p)) ∧
      r.displayed = some (fun p =>
        displayMain (r.self.frameBufferColorBuffer p) r.self.currentSampleNumber) := by
  cases hc : s.clearFlag <;> simp [Render, hvis, hvol, hc]

/-- `ClearPhotonRender` on a visible renderer: the members it sets and the
ones it keeps. -/
theorem ClearPhotonRender_visible (s : PhotonVolumeObject) (W H : ℤ) (u : Image)
    (hvis : s.visible = true) :
    (ClearPhotonRender s W H u).visible = true ∧
    (ClearPhotonRender s W H u).volumeTexture = s.volumeTexture ∧
    (ClearPhotonRender s W H u).currentSampleNumber = 0 ∧
    (ClearPhotonRender s W H u).targetWidth = W ∧
    (ClearPhotonRender s W H u).targetHeight = H ∧
    (ClearPhotonRender s W H u).clearFlag = true := by
  by_cases h : W ≠ s.targetWidth ∨ H ≠ s.targetHeight
  · simp [ClearPhotonRender, hvis, h]
  · have h2 := h
    rw [not_or, not_not, not_not] at h2
    simp [ClearPhotonRender, hvis, h, h2.1, h2.2]

/-- `Render` on a hidden renderer returns at once. -/
theorem render_hidden_frame (s : PhotonVolumeObject) (V P : Mat4) (e : Image)
    (hvis : s.visible = false) :
    Render s V P e = .ok { self := s, displayed := none } := by
  simp [Render, hvis]

/-! ### The accumulation life cycle (C1 to C5) -/

/-- C2 fails as stated: on the hidden renderer `ClearPhotonRender(640, 480)`
returns at once, so the sample count stays 5, the target size stays 800 x 600
and no clear is requested. -/
theorem clear_hidden_counterexample :
    ¬ ((ClearPhotonRender hiddenRenderer 640 480 (constImage 0)).currentSampleNumber = 0 ∧
       (ClearPhotonRender hiddenRenderer 640 480 (constImage 0)).targetWidth = 640 ∧
       (ClearPhotonRender hiddenRenderer 640 480 (constImage 0)).targetHeight = 480 ∧
       (ClearPhotonRender hiddenRenderer 640 480 (constImage 0)).clearFlag = true) := by
  simp [ClearPhotonRender, hiddenRenderer]

/-- C2, amended: for every renderer state with `visible = true` and every `W`
and `H`, after `ClearPhotonRender(W, H)` the state has
`currentSampleNumber = 0`, `targetWidth = W`, `targetHeight = H` and
`clearFlag = true`, and the next `Render` (with a volume bound) leaves exactly
its own estimate in the accumulation buffer; a renderer with `visible = false`
is left as it is. -/
theorem clear_resets_visible (s : PhotonVolumeObject) (W H : ℤ) (u : Image) :
    (s.visible = true →
      (ClearPhotonRender s W H u).currentSampleNumber = 0 ∧
      (ClearPhotonRender s W H u).targetWidth = W ∧
      (ClearPhotonRender s W H u).targetHeight = H ∧
      (ClearPhotonRender s W H u).clearFlag = true ∧
      ∀ (V P : Mat4) (e : Image), s.volumeTexture ≠ none →
        ∃ r : RenderResult, Render (ClearPhotonRender s W H u) V P e = .ok r ∧
          ∀ p, r.self.frameBufferColorBuffer p = e p) ∧
    (s.visible = false → ClearPhotonRender s W H u = s) := by
  constructor
  · intro hvis
    obtain ⟨cvis, cvol, ccount, cw, ch, cclear⟩ := ClearPhotonRender_visible s W H u hvis
    refine ⟨ccount, cw, ch, cclear, ?_⟩
    intro V P e hvol
    obtain ⟨t, ht⟩ := Option.ne_none_iff_exists'.mp hvol
    obtain ⟨r, hr, -, -, -, -, -, -, rbuf, -⟩ :=
      Render_ok (ClearPhotonRender s W H u) V P e t cvis (cvol.trans ht)
    refine ⟨r, hr, ?_⟩
    intro p; rw [rbuf p, cclear]; simp
  · intro hvis
    simp [ClearPhotonRender, hvis]

/-- C2 amended, at concrete inputs: a visible and a hidden renderer. -/
theorem clear_resets_visible_witness :
    ((ClearPhotonRender readyRenderer 640 480 (constImage 0)).currentSampleNumber = 0 ∧
      (ClearPhotonRender readyRenderer 640 480 (constImage 0)).targetWidth = 640 ∧
      (ClearPhotonRender readyRenderer 640 480 (constImage 0)).targetHeight = 480 ∧
      (ClearPhotonRender readyRenderer 640 480 (constImage 0)).clearFlag = true) ∧
    ClearPhotonRender hiddenRenderer 640 480 (constImage 0) = hiddenRenderer :=
  ⟨let h := (clear_resets_visible readyRenderer 640 480 (constImage 0)).1 rfl
   ⟨h.1, h.2.1, h.2.2.1, h.2.2.2.1⟩,
   (clear_resets_visible hiddenRenderer 640 480 (constImage 0)).2 rfl⟩

/-- C3, the code at the failing input: on `readyRenderer`, constructed and
initialised and never cleared, whose colour attachment came up holding
(1, 1, 1), one `Render` with the estimate (1/2, 1/4, 1/8) displays
(3/2, 5/4, 9/8); the same call made right after `ClearPhotonRender(800, 600)`
displays (1/2, 1/4, 1/8). -/
theorem fresh_render_differs_from_cleared :
    displayedAt (Render readyRenderer identityMatrix identityMatrix
        (constImage ⟨1 / 2, 1 / 4, 1 / 8⟩)) (0, 0) = some ⟨3 / 2, 5 / 4, 9 / 8, 1⟩ ∧
    displayedAt (Render (ClearPhotonRender readyRenderer 800 600 (constImage ⟨1, 1, 1⟩))
        identityMatrix identityMatrix (constImage ⟨1 / 2, 1 / 4, 1 / 8⟩)) (0, 0)
      = some ⟨1 / 2, 1 / 4, 1 / 8, 1⟩ := by
  constructor
  · simp [displayedAt, Render, readyRenderer, freshRenderer, SetVolumeTexture, Init, construct,
      rawObject, displayMain, constImage]
    norm_num
  · simp [displayedAt, Render, ClearPhotonRender, readyRenderer, freshRenderer, SetVolumeTexture,
      Init, construct, rawObject, displayMain, constImage]

/-- C4: on a renderer with `visible = false`, `Render` returns the object as it
was (accumulation buffer, `currentSampleNumber`, `clearFlag`, `targetWidth` and
`targetHeight` included) and performs no display pass, whatever the matrices
and the estimate. -/
theorem render_hidden_unchanged (s : PhotonVolumeObject) (V P : Mat4) (e : Image)
    (hvis : s.visible = false) :
    Render s V P e = .ok { self := s, displayed := none } := by
  simp [Render, hvis]

/-- C4, at a concrete input: the hidden renderer. -/
theorem render_hidden_unchanged_witness :
    Render hiddenRenderer identityMatrix identityMatrix (constImage ⟨1, 1, 1⟩)
      = .ok { self := hiddenRenderer, displayed := none } :=
  render_hidden_unchanged hiddenRenderer identityMatrix identityMatrix (constImage ⟨1, 1, 1⟩) rfl

/-- C5, the code at the failing input: on a visible renderer right after
`Init()`, where `volumeTexture` is `NULL`, both `PhotonVolumeObject::Render`
and `TextureSliceObject::Render` call a member function through the null
pointer. -/
theorem render_without_volume_faults :
    Render freshRenderer identityMatrix identityMatrix (constImage 0)
      = .error Fault.nullDereference ∧
    TextureSliceObject.Render freshSlice identityMatrix identityMatrix
      = .error Fault.nullDereference := by
  constructor
  · simp [Render, freshRenderer, Init, construct, rawObject]
  · simp [TextureSliceObject.Render, freshSlice, TextureSliceObject.Init,
      TextureSliceObject.construct, rawSlice]


end PhotonVolumeObject

/-! ### The photon fragment shader (C6 to C9) -/

/-- A maximum that is `-∞` has `-∞` as its first operand and no finite second
operand. -/
theorem XRat.max_eq_negInf (a b : XRat) (h : XRat.max a b = XRat.negInf) :
    a = XRat.negInf ∧ ∀ q, b ≠ XRat.fin q := by
  cases a <;> cases b <;> simp only [XRat.max, XRat.lt] at h <;> (try split_ifs at h) <;>
    simp_all

/-- A value below a finite one is finite or `-∞`. -/
theorem XRat.lt_fin (a : XRat) (d : ℚ) (h : XRat.lt a (XRat.fin d) = true) :
    (∃ q, a = XRat.fin q) ∨ a = XRat.negInf := by
  cases a <;> simp_all [XRat.lt]

/-- The slab of an axis along which the direction is not zero is entered at a
finite distance. -/
theorem XRat.min_mulFin_recip (a b d : ℚ) (hd : d ≠ 0) :
    ∃ q, XRat.min (XRat.mulFin a (XRat.recip d)) (XRat.mulFin b (XRat.recip d)) = XRat.fin q := by
  simp only [XRat.recip, hd, if_false, XRat.mulFin, XRat.min]
  split_ifs
  · exact ⟨_, rfl⟩
  · exact ⟨_, rfl⟩

/-- The distance of a hit is finite when the normalised direction is not the
zero vector, so `XRat.toRat` loses nothing in `marchStart`. -/
theorem hit_dist_finite (B : Builtins) (inp : PhotonFragment)
    (hdir : normalize B inp.rayDir ≠ 0) (hhit : (mainHit B inp).hit = true) :
    ∃ q, (mainHit B inp).dist = XRat.fin q := by
  simp only [mainHit, RayAABBIntersect, Bool.and_eq_true] at hhit ⊢
  rcases XRat.lt_fin _ _ hhit.2 with h | h
  · exact h
  · exfalso
    obtain ⟨hxy, hz⟩ := XRat.max_eq_negInf _ _ h
    obtain ⟨hx, hy⟩ := XRat.max_eq_negInf _ _ hxy
    apply hdir
    ext
    · by_contra hne
      obtain ⟨q, hq⟩ := XRat.min_mulFin_recip (-1 / 2 - inp.rayOrig.x) (1 / 2 - inp.rayOrig.x)
        (normalize B inp.rayDir).x hne
      rw [hq] at hx
      exact absurd hx (by simp)
    · by_contra hne
      obtain ⟨q, hq⟩ := XRat.min_mulFin_recip (-1 / 2 - inp.rayOrig.y) (1 / 2 - inp.rayOrig.y)
        (normalize B inp.rayDir).y hne
      exact hy q hq
    · by_contra hne
      obtain ⟨q, hq⟩ := XRat.min_mulFin_recip (-1 / 2 - inp.rayOrig.z) (1 / 2 - inp.rayOrig.z)
        (normalize B inp.rayDir).z hne
      exact hz q hq


/-- The slab test on the ray from (0, 0, -2) along (0, 0, 1): a hit at
distance 3/2. -/
theorem slab_axis_ray_hits :
    RayAABBIntersect ⟨0, 0, -2⟩ ⟨XRat.recip 0, XRat.recip 0, XRat.recip 1⟩
      ⟨-1 / 2, -1 / 2, -1 / 2⟩ ⟨1 / 2, 1 / 2, 1 / 2⟩ BIGNUM
      = { hit := true, dist := XRat.fin (3 / 2) } := by
  norm_num [RayAABBIntersect, XRat.recip, XRat.mulFin, XRat.min, XRat.max, XRat.lt, XRat.ge,
    BIGNUM]

/-- The slab test on the ray from (2, 2, -2) along (0, 0, 1): no hit. -/
theorem slab_offset_ray_misses :
    (RayAABBIntersect ⟨2, 2, -2⟩ ⟨XRat.recip 0, XRat.recip 0, XRat.recip 1⟩
      ⟨-1 / 2, -1 / 2, -1 / 2⟩ ⟨1 / 2, 1 / 2, 1 / 2⟩ BIGNUM).hit = false := by
  norm_num [RayAABBIntersect, XRat.recip, XRat.mulFin, XRat.min, XRat.max, XRat.lt, XRat.ge,
    BIGNUM]

/-- The direction (0, 0, 1) is its own normalisation when `sqrt 1 = 1`. -/
theorem normalize_unit_z (B : Builtins) (h1 : B.sqrt 1 = 1) :
    normalize B ⟨0, 0, 1⟩ = ⟨0, 0, 1⟩ := by
  simp [normalize, length, Vec3.dot, Vec3.divScalar, h1]


/-- The word `Random` hands to `uintBitsToFloat`: exponent bits of 1.0 over the
low 23 bits of `h`. -/
theorem mantissa_word (h : ℕ) :
    (h &&& 0x007FFFFF) ||| 0x3F800000 = 2 ^ 23 * 127 + h % 2 ^ 23 := by
  have hand : h &&& 0x007FFFFF = h % 2 ^ 23 := Nat.and_pow_two_sub_one_eq_mod h 23
  have hlt : h % 2 ^ 23 < 2 ^ 23 := Nat.mod_lt _ (by norm_num)
  rw [hand, Nat.lor_comm, Nat.mul_add_lt_is_or hlt 127]

/-- The float whose pattern has the exponent bits of 1.0 and mantissa `m`. -/
theorem uintBitsToFloat_one_plus (m : ℕ) (hm : m < 2 ^ 23) :
    uintBitsToFloat (2 ^ 23 * 127 + m) = 1 + (m : ℚ) / 2 ^ 23 := by
  have h1 : (2 ^ 23 * 127 + m) / 2 ^ 31 % 2 = 0 := by omega
  have h2 : (2 ^ 23 * 127 + m) / 2 ^ 23 % 256 = 127 := by omega
  have h3 : (2 ^ 23 * 127 + m) % 2 ^ 23 = m := by omega
  simp only [uintBitsToFloat, h1, h2, h3]
  norm_num

/-- The value of `Random` is `m / 2 ^ 23` for a 23-bit `m`. -/
theorem Random_eq (B : Builtins) (f : Vec2) (seed : ℚ) :
    ∃ m : ℕ, m < 2 ^ 23 ∧ Random B f seed = (m : ℚ) / 2 ^ 23 := by
  refine ⟨HashUvec3 (B.floatBitsToUint f.x % 2 ^ 32) (B.floatBitsToUint f.y % 2 ^ 32)
    (B.floatBitsToUint seed % 2 ^ 32) % 2 ^ 23, Nat.mod_lt _ (by norm_num), ?_⟩
  simp only [Random]
  rw [mantissa_word, uintBitsToFloat_one_plus _ (Nat.mod_lt _ (by norm_num))]
  ring

/-- The value of `Random` is in [0, 1). -/
theorem Random_bounds (B : Builtins) (f : Vec2) (seed : ℚ) :
    0 ≤ Random B f seed ∧ Random B f seed < 1 := by
  obtain ⟨m, hm, h⟩ := Random_eq B f seed
  rw [h]
  have hm' : (m : ℚ) < 2 ^ 23 := by exact_mod_cast hm
  constructor
  · positivity
  · rw [div_lt_one (by norm_num)]; exact hm'

/-- C6: called as `main` calls it (box `[-0.5, 0.5]^3`, the reciprocal of the
normalised direction, `dist = 1e10`), `RayAABBIntersect` reports a hit at
distance 3/2 for the ray from (0, 0, -2) along (0, 0, 1) and no hit for the
ray from (2, 2, -2) along (0, 0, 1); `sqrt 1 = 1` is all that is asked of the
built-ins. -/
theorem slab_test_examples (B : Builtins) (fragCoord : Vec2) (h1 : B.sqrt 1 = 1) :
    mainHit B { rayOrig := ⟨0, 0, -2⟩, rayDir := ⟨0, 0, 1⟩, fragCoord := fragCoord }
      = { hit := true, dist := XRat.fin (3 / 2) } ∧
    (mainHit B { rayOrig := ⟨2, 2, -2⟩, rayDir := ⟨0, 0, 1⟩, fragCoord := fragCoord }).hit
      = false := by
  simp only [mainHit, normalize_unit_z B h1]
  exact ⟨slab_axis_ray_hits, slab_offset_ray_misses⟩

/-- The rational square root of 1 is 1. -/
theorem refBuiltins_sqrt_one : refBuiltins.sqrt 1 = 1 := by
  have h := Rat.sqrt_eq 1
  simp only [mul_one, abs_one] at h
  exact h

/-- C6, with the built-ins `refBuiltins`. -/
theorem slab_test_examples_witness :
    mainHit refBuiltins { rayOrig := ⟨0, 0, -2⟩, rayDir := ⟨0, 0, 1⟩, fragCoord := ⟨1 / 2, 1 / 2⟩ }
      = { hit := true, dist := XRat.fin (3 / 2) } ∧
    (mainHit refBuiltins
      { rayOrig := ⟨2, 2, -2⟩, rayDir := ⟨0, 0, 1⟩, fragCoord := ⟨1 / 2, 1 / 2⟩ }).hit = false :=
  slab_test_examples refBuiltins ⟨1 / 2, 1 / 2⟩ refBuiltins_sqrt_one

/-- C7: for every 32-bit word `h` (indeed every natural number),
`(h & 0x007FFFFF) | 0x3F800000` is the bit pattern of the float
`1 + m / 2^23` with `m = h mod 2^23`, and for every pixel coordinate and every
seed `Random` returns `m / 2^23` for some `0 <= m < 2^23`, a value in [0, 1). -/
theorem Random_in_unit_interval :
    (∀ h : ℕ, uintBitsToFloat ((h &&& 0x007FFFFF) ||| 0x3F800000)
        = 1 + ((h % 2 ^ 23 : ℕ) : ℚ) / 2 ^ 23) ∧
    ∀ (B : Builtins) (f : Vec2) (seed : ℚ),
      (∃ m : ℕ, m < 2 ^ 23 ∧ Random B f seed = (m : ℚ) / 2 ^ 23) ∧
      0 ≤ Random B f seed ∧ Random B f seed < 1 := by
  constructor
  · intro h
    rw [mantissa_word, uintBitsToFloat_one_plus _ (Nat.mod_lt _ (by norm_num))]
  · intro B f seed
    exact ⟨Random_eq B f seed, Random_bounds B f seed⟩

/-- C8: for every ray for which `RayAABBIntersect` reports no hit, `main`
writes the environment map sampled along the normalised view direction, with
alpha 1, whatever the uniforms are. -/
theorem miss_shows_environment (B : Builtins) (u : PhotonUniforms) (inp : PhotonFragment)
    (hmiss : (mainHit B inp).hit = false) :
    main B u inp =
      ⟨(u.envMapTexture (normalize B inp.rayDir)).x, (u.envMapTexture (normalize B inp.rayDir)).y,
       (u.envMapTexture (normalize B inp.rayDir)).z, 1⟩ := by
  simp [main, hmiss, FetchEnvMap, sampleNumber, Vec4.xyz]

/-- The ray of `missFragment` misses the box. -/
theorem missFragment_misses : (mainHit refBuiltins missFragment).hit = false := by
  simp only [mainHit, missFragment, normalize_unit_z refBuiltins refBuiltins_sqrt_one]
  exact slab_offset_ray_misses

/-- C8, at a concrete input: the ray of `missFragment` under a sky of colour
(1/2, 1/3, 1/5). -/
theorem miss_shows_environment_witness :
    main refBuiltins (emptyScene ⟨1 / 2, 1 / 3, 1 / 5⟩) missFragment =
      ⟨((emptyScene ⟨1 / 2, 1 / 3, 1 / 5⟩).envMapTexture
          (normalize refBuiltins missFragment.rayDir)).x,
       ((emptyScene ⟨1 / 2, 1 / 3, 1 / 5⟩).envMapTexture
          (normalize refBuiltins missFragment.rayDir)).y,
       ((emptyScene ⟨1 / 2, 1 / 3, 1 / 5⟩).envMapTexture
          (normalize refBuiltins missFragment.rayDir)).z, 1⟩ :=
  miss_shows_environment refBuiltins (emptyScene ⟨1 / 2, 1 / 3, 1 / 5⟩) missFragment
    missFragment_misses


/-! ### A scene without surfaces (C9) -/

/-- Where the gradient is not above the threshold, the head of a march
iteration changes nothing. -/
theorem bounce_noSurface (B : Builtins) (u : PhotonUniforms) (fragCoord : Vec2) (s i : ℕ)
    (st : MarchState)
    (h : length B (FetchGradient u st.photonPos) ≤ u.gradientThreshold) :
    bounce B u fragCoord s i st = st := by
  have h' : ¬ length B (FetchGradient u st.photonPos) > u.gradientThreshold := not_lt.mpr h
  simp only [bounce, h', if_false]

/-- Steps of a straight march add up. -/
theorem straight_step (pos dir : Vec3) (k : ℕ) :
    pos + dir.scale stepSize + dir.scale (stepSize * ((k : ℚ) + 1))
      = pos + dir.scale (stepSize * (((k + 1 : ℕ) : ℚ) + 1)) := by
  ext <;> simp <;> ring

/-- The value of `main` on a hit ray, from the value of its march. -/
theorem main_hit (B : Builtins) (u : PhotonUniforms) (inp : PhotonFragment)
    (hhit : (mainHit B inp).hit = true) :
    (main B u inp).xyz
      = march B u inp.fragCoord 0 photonMarchCount 0
          { finalColor := 0
            runningReflectanceFactor := ⟨1, 1, 1⟩
            photonDir := normalize B inp.rayDir
            photonPos := marchStart B inp } ∧
    (main B u inp).w = 1 := by
  constructor
  · ext <;> simp [main, hhit, sampleNumber, Vec4.xyz, List.range_succ]
  · simp [main]

/-- The rational square root of 0 is 0. -/
theorem refBuiltins_sqrt_zero : refBuiltins.sqrt 0 = 0 := by
  have h := Rat.sqrt_eq 0
  simp only [mul_zero, abs_zero] at h
  exact h

/-- The scene `emptyScene E` has no surface: the decoded gradient is zero
everywhere. -/
theorem emptyScene_noSurface (E : Vec3) (pos : Vec3) :
    length refBuiltins (FetchGradient (emptyScene E) pos) ≤ (emptyScene E).gradientThreshold := by
  have h : FetchGradient (emptyScene E) pos = 0 := by
    ext <;> simp [FetchGradient, emptyScene, Vec4.xyz]
  rw [h]
  simp only [length, Vec3.dot, Vec3.zero_x, Vec3.zero_y, Vec3.zero_z, mul_zero, add_zero,
    refBuiltins_sqrt_zero, emptyScene]
  norm_num

/-- The direction of `diagonalFragment` is its own normalisation. -/
theorem diagonal_normalize :
    normalize refBuiltins diagonalFragment.rayDir = ⟨23 / 41, 24 / 41, 24 / 41⟩ := by
  have h : Vec3.dot diagonalFragment.rayDir diagonalFragment.rayDir = 1 := by
    norm_num [Vec3.dot, diagonalFragment]
  simp only [normalize, length, h, refBuiltins_sqrt_one]
  ext <;> simp [diagonalFragment]

/-- The ray of `diagonalFragment` hits the box, at distance 55/48. -/
theorem diagonal_hit :
    mainHit refBuiltins diagonalFragment = { hit := true, dist := XRat.fin (55 / 48) } := by
  simp only [mainHit, diagonal_normalize]
  norm_num [diagonalFragment, RayAABBIntersect, XRat.recip, XRat.mulFin, XRat.min, XRat.max,
    XRat.lt, XRat.ge, BIGNUM]

/-- The straight march of `diagonalFragment` is still inside the box after
each of its 800 steps. -/
theorem diagonal_stays (k : ℕ) (hk : k < photonMarchCount) :
    outsideBox (marchStart refBuiltins diagonalFragment
      + (normalize refBuiltins diagonalFragment.rayDir).scale (stepSize * ((k : ℚ) + 1)))
      = false := by
  obtain ⟨hr0, hr1⟩ := Random_bounds refBuiltins diagonalFragment.fragCoord 1234
  have hk' : (k : ℚ) ≤ 799 := by
    have : k ≤ 799 := by simp only [photonMarchCount] at hk; omega
    exact_mod_cast this
  have hk0 : (0 : ℚ) ≤ (k : ℚ) := Nat.cast_nonneg k
  simp only [marchStart, diagonal_normalize, diagonal_hit, XRat.toRat, outsideBox,
    decide_eq_false_iff_not, not_or, not_lt, Vec3.add_x, Vec3.add_y, Vec3.add_z, Vec3.scale_x,
    Vec3.scale_y, Vec3.scale_z, stepSize, gt_iff_lt]
  generalize Random refBuiltins diagonalFragment.fragCoord 1234 = r at hr0 hr1
  simp only [diagonalFragment]
  refine ⟨?_, ?_, ?_, ?_, ?_, ?_⟩ <;> linarith

/-- C10 fails as stated: a texel with red 1 and alpha 0 (the border colour
outside the volume has alpha 0), under contrast 1, brightness 0 and threshold
0, gives `c = 1 > threshold`, yet the fragment is discarded: the opaque colour
(1, 1, 1, 1) is not written. -/
theorem slice_discard_counterexample :
    clamp (1 * (⟨1, 0, 0, 0⟩ : Vec4).x + 0) 0 1 > 0 ∧
    sliceMain
        { volumeTexture := fun _ => ⟨1, 0, 0, 0⟩
          texDim := ⟨64, 64, 32⟩
          brightness := 0
          contrast := 1
          threshold := 0
          lutTexture := fun _ => ⟨0, 0, 0, 0⟩ } ⟨0, 0, 0, 1⟩
      = none := by
  constructor
  · norm_num [clamp]
  · norm_num [sliceMain]

/-- C10, amended: for every sampled volume texel whose alpha is above 0.0001
and every contrast, brightness and threshold, the slice fragment shader
computes `c = clamp(contrast * intensity + brightness, 0, 1)` from the texel's
red channel and outputs the fully transparent (0, 0, 0, 0) when
`c <= threshold` and the opaque grayscale (c, c, c, 1) in every other case; a
fragment whose texel has alpha at most 0.0001 is discarded. -/
theorem slice_threshold (u : SliceUniforms) (fragmentPosition : Vec4) :
    (1 / 10000 < (u.volumeTexture (sliceTexCoord u.texDim fragmentPosition)).w →
      sliceMain u fragmentPosition = some
        (if clamp (u.contrast * (u.volumeTexture (sliceTexCoord u.texDim fragmentPosition)).x
              + u.brightness) 0 1 ≤ u.threshold
         then ⟨0, 0, 0, 0⟩
         else
          ⟨clamp (u.contrast * (u.volumeTexture (sliceTexCoord u.texDim fragmentPosition)).x
              + u.brightness) 0 1,
           clamp (u.contrast * (u.volumeTexture (sliceTexCoord u.texDim fragmentPosition)).x
              + u.brightness) 0 1,
           clamp (u.contrast * (u.volumeTexture (sliceTexCoord u.texDim fragmentPosition)).x
              + u.brightness) 0 1, 1⟩)) ∧
    ((u.volumeTexture (sliceTexCoord u.texDim fragmentPosition)).w ≤ 1 / 10000 →
      sliceMain u fragmentPosition = none) := by
  constructor
  · intro hw
    have hw' : ¬ (u.volumeTexture (sliceTexCoord u.texDim fragmentPosition)).w ≤ 1 / 10000 :=
      not_le.mpr hw
    by_cases hc : clamp (u.contrast * (u.volumeTexture (sliceTexCoord u.texDim fragmentPosition)).x
        + u.brightness) 0 1 ≤ u.threshold
    · have hc' := not_lt.mpr hc
      simp only [sliceMain, hw', if_false, hc, if_true, gt_iff_lt, hc']
    · have hc' := not_le.mp hc
      simp only [sliceMain, hw', if_false, hc, gt_iff_lt, hc', if_true]
  · intro hw
    simp only [sliceMain, hw, if_true]

/-- C10 amended, at concrete inputs: an opaque texel of intensity 1/2 under
contrast 1, brightness 0, threshold 1/4 is drawn as (1/2, 1/2, 1/2, 1), and a
texel of alpha 0 is discarded. -/
theorem slice_threshold_witness :
    sliceMain
        { volumeTexture := fun _ => ⟨1 / 2, 0, 0, 1⟩
          texDim := ⟨64, 64, 32⟩
          brightness := 0
          contrast := 1
          threshold := 1 / 4
          lutTexture := fun _ => ⟨0, 0, 0, 0⟩ } ⟨0, 0, 0, 1⟩
      = some ⟨1 / 2, 1 / 2, 1 / 2, 1⟩ ∧
    sliceMain
        { volumeTexture := fun _ => ⟨1, 0, 0, 0⟩
          texDim := ⟨64, 64, 32⟩
          brightness := 0
          contrast := 1
          threshold := 0
          lutTexture := fun _ => ⟨0, 0, 0, 0⟩ } ⟨0, 0, 0, 1⟩
      = none := by
  constructor
  · have h := (slice_threshold
        { volumeTexture := fun _ => ⟨1 / 2, 0, 0, 1⟩
          texDim := ⟨64, 64, 32⟩
          brightness := 0
          contrast := 1
          threshold := 1 / 4
          lutTexture := fun _ => ⟨0, 0, 0, 0⟩ } ⟨0, 0, 0, 1⟩).1 (by norm_num)
    rw [h]
    norm_num [clamp]
  · exact (slice_threshold
        { volumeTexture := fun _ => ⟨1, 0, 0, 0⟩
          texDim := ⟨64, 64, 32⟩
          brightness := 0
          contrast := 1
          threshold := 0
          lutTexture := fun _ => ⟨0, 0, 0, 0⟩ } ⟨0, 0, 0, 1⟩).2 (by norm_num)


/-! ### Contrast and aspect correction (C11, C12) -/

/-- C11: for every input `c`, `SetContrast(c)` stores
`contrast = 1 / (k * (-c / 100) + 1)` when `c < 0` and
`contrast = k * (c / 100) + 1` when `c >= 0`, with `k = 10`; the two formulas
agree at `c = 0`, where the stored contrast is 1. -/
theorem SetContrast_formula (self : TextureSliceObject) (c : ℚ) :
    (c < 0 → (TextureSliceObject.SetContrast self c).contrast = 1 / (10 * (-c / 100) + 1)) ∧
    (0 ≤ c → (TextureSliceObject.SetContrast self c).contrast = 10 * (c / 100) + 1) ∧
    (1 / (10 * (-(0 : ℚ) / 100) + 1) = 10 * ((0 : ℚ) / 100) + 1) ∧
    (TextureSliceObject.SetContrast self 0).contrast = 1 := by
  refine ⟨?_, ?_, ?_, ?_⟩
  · intro h
    simp only [TextureSliceObject.SetContrast, h, if_true]
  · intro h
    have h' : ¬ c < 0 := not_lt.mpr h
    simp only [TextureSliceObject.SetContrast, h', if_false]
  · norm_num
  · norm_num [TextureSliceObject.SetContrast]

/-- C11, at concrete inputs: `SetContrast(-50)` stores 1/6 and
`SetContrast(50)` stores 6. -/
theorem SetContrast_formula_witness :
    (TextureSliceObject.SetContrast freshSlice (-50)).contrast = 1 / 6 ∧
    (TextureSliceObject.SetContrast freshSlice 50).contrast = 6 := by
  constructor
  · rw [(SetContrast_formula freshSlice (-50)).1 (by norm_num)]; norm_num
  · rw [(SetContrast_formula freshSlice 50).2.1 (by norm_num)]; norm_num

/-- C12 fails as stated: for a volume of 64 x 64 x 32 voxels (depth/height
ratio 1/2) the texture coordinate that `Fetch3DVolume` computes for the
position (0, 0, 1/2) is (1/2, 1/2, 3/2): its z offset from the centre is 1,
the position's z divided by the ratio, and not 1/4, the position's z
multiplied by the ratio. -/
theorem aspect_ratio_counterexample :
    Fetch3DVolume (probeScene ⟨64, 64, 32⟩) ⟨0, 0, 1 / 2⟩ = ⟨1 / 2, 1 / 2, 3 / 2, 1⟩ ∧
    ¬ ((Fetch3DVolume (probeScene ⟨64, 64, 32⟩) ⟨0, 0, 1 / 2⟩).z - 1 / 2
        = 1 / 2 * (32 / 64)) := by
  constructor
  · ext <;> norm_num [Fetch3DVolume, probeScene]
  · norm_num [Fetch3DVolume, probeScene]

/-- C12, amended: for every volume with positive height `h` and depth `d` and
`d ≠ h`, the raw texture coordinate that `Fetch3DVolume`, `FetchGradient` and
the slice shader compute for the normalised position (0, 0, 1/2) is
(1/2, 1/2, 1/2 + (1/2) / (d / h)): its z offset from the texture centre 1/2 is
the position's z divided by the depth/height ratio, and it differs from the
coordinate (1/2, 1/2, 1) computed for a cubic volume at the same position. -/
theorem aspect_correction (u : PhotonUniforms) (w h d : ℚ) (hh : 0 < h) (hd : 0 < d)
    (hne : d ≠ h) (hdim : u.texDim = ⟨w, h, d⟩) :
    Fetch3DVolume u ⟨0, 0, 1 / 2⟩ = u.volumeTexture ⟨1 / 2, 1 / 2, 1 / 2 + 1 / 2 / (d / h)⟩ ∧
    FetchGradient u ⟨0, 0, 1 / 2⟩
      = (u.gradientTexture ⟨1 / 2, 1 / 2, 1 / 2 + 1 / 2 / (d / h)⟩).xyz - ⟨1 / 2, 1 / 2, 1 / 2⟩ ∧
    sliceTexCoord ⟨w, h, d⟩ ⟨0, 0, 1 / 2, 1⟩ = ⟨1 / 2, 1 / 2, 1 / 2 + 1 / 2 / (d / h)⟩ ∧
    (∀ c : ℚ, 0 < c → sliceTexCoord ⟨c, c, c⟩ ⟨0, 0, 1 / 2, 1⟩ = ⟨1 / 2, 1 / 2, 1⟩) ∧
    (⟨1 / 2, 1 / 2, 1 / 2 + 1 / 2 / (d / h)⟩ : Vec3) ≠ ⟨1 / 2, 1 / 2, 1⟩ := by
  have hcoord : (⟨0, 0, 1 / 2⟩ : Vec3) * ⟨1, 1, 1 / (d / h)⟩ + ⟨1 / 2, 1 / 2, 1 / 2⟩
      = ⟨1 / 2, 1 / 2, 1 / 2 + 1 / 2 / (d / h)⟩ := by
    ext
    · simp
    · simp
    · show (1 / 2 : ℚ) * (1 / (d / h)) + 1 / 2 = 1 / 2 + 1 / 2 / (d / h)
      ring
  refine ⟨?_, ?_, ?_, ?_, ?_⟩
  · simp only [Fetch3DVolume, hdim, hcoord]
  · simp only [FetchGradient, hdim, hcoord]
  · simp only [sliceTexCoord, Vec4.xyz, hcoord]
  · intro c hc
    have hc' : c ≠ 0 := hc.ne'
    ext <;> simp [sliceTexCoord, Vec4.xyz, hc']
    norm_num
  · intro heq
    have hz := congrArg Vec3.z heq
    simp only at hz
    have hd' : d ≠ 0 := hd.ne'
    have hh' : h ≠ 0 := hh.ne'
    field_simp at hz
    apply hne
    linarith

/-- C12 amended, at a concrete input: the volume of 64 x 64 x 32 voxels. -/
theorem aspect_correction_witness :
    Fetch3DVolume (probeScene ⟨64, 64, 32⟩) ⟨0, 0, 1 / 2⟩
      = (probeScene ⟨64, 64, 32⟩).volumeTexture ⟨1 / 2, 1 / 2, 1 / 2 + 1 / 2 / (32 / 64)⟩ ∧
    (⟨1 / 2, 1 / 2, 1 / 2 + 1 / 2 / (32 / 64)⟩ : Vec3) ≠ ⟨1 / 2, 1 / 2, 1⟩ :=
  have h := aspect_correction (probeScene ⟨64, 64, 32⟩) 64 64 32 (by norm_num) (by norm_num)
    (by norm_num) rfl
  ⟨h.1, h.2.2.2.2⟩

/-! ### What a bounce reads (C18, C19) -/

/-- The head of a march iteration reads neither `brightness` nor `contrast`
nor the alpha channel of the LUT. -/
theorem bounce_ignores (B : Builtins) (u : PhotonUniforms) (fragCoord : Vec2) (s i : ℕ)
    (st : MarchState) (b c : ℚ) (lut : ℚ → Vec4)
    (hlut : ∀ t, (lut t).xyz = (u.lutTexture t).xyz) :
    bounce B { u with brightness := b, contrast := c, lutTexture := lut } fragCoord s i st
      = bounce B u fragCoord s i st := by
  simp only [bounce, FetchGradient, Fetch3DVolume, hlut]

/-- The march loop reads neither `brightness` nor `contrast` nor the alpha
channel of the LUT. -/
theorem march_ignores (B : Builtins) (u : PhotonUniforms) (fragCoord : Vec2) (s : ℕ)
    (b c : ℚ) (lut : ℚ → Vec4) (hlut : ∀ t, (lut t).xyz = (u.lutTexture t).xyz) :
    ∀ (fuel i : ℕ) (st : MarchState),
      march B { u with brightness := b, contrast := c, lutTexture := lut } fragCoord s fuel i st
        = march B u fragCoord s fuel i st := by
  intro fuel
  induction fuel with
  | zero => intro i st; rfl
  | succ fuel ih =>
    intro i st
    simp only [march, bounce_ignores B u fragCoord s i st b c lut hlut, ih, FetchEnvMap]

/-- C18: for every pixel, a bounce taken at march index `i = 0` (sample index
`s = 0`) uses the seed vector (0, 0) whatever `randomFloat0` and `randomFloat1`
are: the two pseudo-random numbers fed to `RandomUnitHemi` are equal to each
other, and the state after the bounce (the new direction with it) is the same
in any two invocations that differ only in `randomFloat0` and
`randomFloat1`. -/
theorem first_bounce_seed (B : Builtins) (u : PhotonUniforms) (fragCoord : Vec2)
    (st : MarchState) :
    (u.gradientThreshold < length B (FetchGradient u st.photonPos) →
      (Vec3.dot (-st.photonDir) (normalize B (FetchGradient u st.photonPos)) > 0
        ∨ u.backFaceCulling = 0) →
      (bounce B u fragCoord 0 0 st).photonDir
        = RandomUnitHemi B
            ⟨(RandomVec2 B fragCoord ⟨0, 0⟩).x * 2 - 1, (RandomVec2 B fragCoord ⟨0, 0⟩).y * 2 - 1⟩
            (normalize B (FetchGradient u st.photonPos))) ∧
    (RandomVec2 B fragCoord ⟨0, 0⟩).x = (RandomVec2 B fragCoord ⟨0, 0⟩).y ∧
    ∀ a b : ℚ, bounce B { u with randomFloat0 := a, randomFloat1 := b } fragCoord 0 0 st
      = bounce B u fragCoord 0 0 st := by
  refine ⟨?_, rfl, ?_⟩
  · intro hlen hface
    have hface' : 0 < Vec3.dot (-st.photonDir) (normalize B (FetchGradient u st.photonPos))
        ∨ u.backFaceCulling = 0 := hface
    simp [bounce, hlen, sampleNumber, photonMarchCount, if_pos hface']
  · intro a b
    simp [bounce, FetchGradient, Fetch3DVolume, sampleNumber, photonMarchCount]

/-- C19: the pixel estimate of the photon fragment shader does not depend on
the alpha channel of the LUT nor on the `brightness` and `contrast` uniforms:
two runs whose uniforms differ only in these produce the same output
colour. -/
theorem estimate_ignores_alpha_brightness_contrast (B : Builtins) (u : PhotonUniforms)
    (inp : PhotonFragment) (b c : ℚ) (lut : ℚ → Vec4)
    (hlut : ∀ t, (lut t).xyz = (u.lutTexture t).xyz) :
    main B { u with brightness := b, contrast := c, lutTexture := lut } inp = main B u inp := by
  simp only [main, march_ignores B u inp.fragCoord _ b c lut hlut, FetchEnvMap]


/-! ### The divisor of the display pass (C16) -/

/-- What a `Render` call that returned has done: nothing on a hidden renderer;
on a visible one it has incremented `currentSampleNumber` and displayed the
buffer divided by the incremented count. -/
theorem Render_returned (s : PhotonVolumeObject) (V P : Mat4) (e : Image)
    (r : PhotonVolumeObject.RenderResult) (h : PhotonVolumeObject.Render s V P e = .ok r) :
    (s.visible = false ∧ r.self = s ∧ r.displayed = none) ∨
    (s.visible = true ∧ r.self.currentSampleNumber = s.currentSampleNumber + 1 ∧
      r.displayed = some (fun p =>
        PhotonVolumeObject.displayMain (r.self.frameBufferColorBuffer p)
          r.self.currentSampleNumber)) := by
  cases hvis : s.visible with
  | false =>
    left
    rw [PhotonVolumeObject.render_hidden_frame s V P e hvis] at h
    cases h
    exact ⟨rfl, rfl, rfl⟩
  | true =>
    right
    cases hvol : s.volumeTexture with
    | none =>
      exfalso
      cases hc : s.clearFlag <;>
        simp [PhotonVolumeObject.Render, hvis, hvol, hc] at h
    | some t =>
      obtain ⟨r', hr', -, -, -, -, -, rcount, -, rdisp⟩ :=
        PhotonVolumeObject.Render_ok s V P e t hvis hvol
      rw [hr'] at h
      cases h
      exact ⟨rfl, rcount, rdisp⟩

/-- In every reachable state `currentSampleNumber` is not negative. -/
theorem Reachable_count_nonneg (s : PhotonVolumeObject)
    (hs : PhotonVolumeObject.Reachable s) : 0 ≤ s.currentSampleNumber := by
  induction hs with
  | construct raw => simp [PhotonVolumeObject.construct]
  | init s t _ ih => exact ih
  | setVolumeTexture s vt _ ih => exact ih
  | setGradientTexture s gt _ ih => exact ih
  | setLUTTexture s lt _ ih => exact ih
  | setEnvMap s env _ ih => exact ih
  | setGradientThreshold s gt _ ih => exact ih
  | setBackFaceCulling s cull _ ih => exact ih
  | setVisible s v _ ih => exact ih
  | render s V P e r _ hr ih =>
    rcases Render_returned s V P e r hr with ⟨-, hself, -⟩ | ⟨-, hcount, -⟩
    · rw [hself]; exact ih
    · rw [hcount]; omega
  | clearPhotonRender s W H t _ ih =>
    cases hvis : s.visible with
    | false => simpa [PhotonVolumeObject.ClearPhotonRender, hvis] using ih
    | true =>
      rw [(PhotonVolumeObject.ClearPhotonRender_visible s W H t hvis).2.2.1]

/-- The conversion `(int)` leaves the values of `int` as they are. -/
theorem intCast_of_lt (x : ℤ) (h0 : -2 ^ 31 ≤ x) (h1 : x < 2 ^ 31) :
    PhotonVolumeObject.intCast x = x := by
  unfold PhotonVolumeObject.intCast
  omega

/-- What a `RenderWithIntCast` call that returned has done: `Render` returns
too and leaves the same object; a visible renderer has displayed the buffer
divided by the converted count. -/
theorem RenderWithIntCast_returned (s : PhotonVolumeObject) (V P : Mat4) (e : Image)
    (r : PhotonVolumeObject.RenderResult)
    (h : PhotonVolumeObject.RenderWithIntCast s V P e = .ok r) :
    (∃ r0 : PhotonVolumeObject.RenderResult,
      PhotonVolumeObject.Render s V P e = .ok r0 ∧ r0.self = r.self) ∧
    (r.displayed = none ∨
      r.displayed = some (fun p =>
        PhotonVolumeObject.displayMain (r.self.frameBufferColorBuffer p)
          (PhotonVolumeObject.intCast r.self.currentSampleNumber))) := by
  cases hvis : s.visible with
  | false =>
    simp only [PhotonVolumeObject.RenderWithIntCast, hvis, Bool.not_false, if_true] at h
    cases h
    exact ⟨⟨_, PhotonVolumeObject.render_hidden_frame s V P e hvis, rfl⟩, Or.inl rfl⟩
  | true =>
    cases hvol : s.volumeTexture with
    | none =>
      exfalso
      cases hc : s.clearFlag <;>
        simp [PhotonVolumeObject.RenderWithIntCast, hvis, hvol, hc] at h
    | some t =>
      have hok : ∃ r1 : PhotonVolumeObject.RenderResult,
          PhotonVolumeObject.RenderWithIntCast s V P e = .ok r1 ∧
          (∃ r0 : PhotonVolumeObject.RenderResult,
            PhotonVolumeObject.Render s V P e = .ok r0 ∧ r0.self = r1.self) ∧
          r1.displayed = some (fun p =>
            PhotonVolumeObject.displayMain (r1.self.frameBufferColorBuffer p)
              (PhotonVolumeObject.intCast r1.self.currentSampleNumber)) := by
        cases hc : s.clearFlag <;>
          simp [PhotonVolumeObject.RenderWithIntCast, PhotonVolumeObject.Render, hvis, hvol, hc]
      obtain ⟨r1, hr1, hrender, hdisp⟩ := hok
      rw [hr1] at h
      cases h
      exact ⟨hrender, Or.inr hdisp⟩

/-- The renderer `readyRenderer` is reachable. -/
theorem readyRenderer_reachable : PhotonVolumeObject.Reachable readyRenderer :=
  PhotonVolumeObject.Reachable.setVolumeTexture _ _
    (PhotonVolumeObject.Reachable.init _ _ (PhotonVolumeObject.Reachable.construct rawObject))

/-- The renderer `readyRenderer` after `n` calls of `Render` whose photon pass
wrote the colour 0 is reachable: every count is. -/
theorem counted_reachable (n : ℕ) :
    PhotonVolumeObject.Reachable { readyRenderer with currentSampleNumber := (n : ℤ) } := by
  induction n with
  | zero => exact readyRenderer_reachable
  | succ n ih =>
    have h := PhotonVolumeObject.Reachable.render _ identityMatrix identityMatrix (constImage 0)
      { self := { readyRenderer with currentSampleNumber := ((n + 1 : ℕ) : ℤ) }
        displayed := some fun p =>
          PhotonVolumeObject.displayMain (readyRenderer.frameBufferColorBuffer p)
            ((n + 1 : ℕ) : ℤ) } ih
    apply h
    simp only [PhotonVolumeObject.Render, readyRenderer, freshRenderer,
      PhotonVolumeObject.SetVolumeTexture, PhotonVolumeObject.Init,
      PhotonVolumeObject.construct, rawObject, constImage, zero_add]
    simp
    rfl

/-- C16, amended: in every state reachable from the constructor (by `Init`,
the setters, `Render` and `ClearPhotonRender`) `currentSampleNumber` is at
least 0, and on every `Render` call from such a state that reaches the display
pass the count is incremented first and the display shader divides by `(int)`
of the incremented count; as long as fewer than `2^31 - 1` samples were
accumulated before the call, that divisor is the incremented count and is at
least 1. -/
theorem display_divisor_positive (s : PhotonVolumeObject)
    (hs : PhotonVolumeObject.Reachable s) :
    0 ≤ s.currentSampleNumber ∧
    ∀ (V P : Mat4) (e : Image) (r : PhotonVolumeObject.RenderResult) (d : Display),
      PhotonVolumeObject.RenderWithIntCast s V P e = .ok r → r.displayed = some d →
      r.self.currentSampleNumber = s.currentSampleNumber + 1 ∧
      (∀ p, d p = PhotonVolumeObject.displayMain (r.self.frameBufferColorBuffer p)
        (PhotonVolumeObject.intCast r.self.currentSampleNumber)) ∧
      (s.currentSampleNumber < 2 ^ 31 - 1 →
        PhotonVolumeObject.intCast r.self.currentSampleNumber = s.currentSampleNumber + 1 ∧
        1 ≤ PhotonVolumeObject.intCast r.self.currentSampleNumber) := by
  have h0 := Reachable_count_nonneg s hs
  refine ⟨h0, ?_⟩
  intro V P e r d hr hd
  obtain ⟨⟨r0, hr0, hself⟩, hdisp⟩ := RenderWithIntCast_returned s V P e r hr
  have hcount : r.self.currentSampleNumber = s.currentSampleNumber + 1 := by
    rcases Render_returned s V P e r0 hr0 with ⟨hvis, -, -⟩ | ⟨-, hcount, -⟩
    · exfalso
      simp [PhotonVolumeObject.RenderWithIntCast, hvis] at hr
      rw [← hr] at hd
      simp at hd
    · rw [← hself]; exact hcount
  refine ⟨hcount, ?_, ?_⟩
  · intro p
    rcases hdisp with hnone | hsome
    · rw [hnone] at hd; exact absurd hd (by simp)
    · rw [hsome] at hd
      cases hd
      rfl
  · intro hlt
    have hc := intCast_of_lt (s.currentSampleNumber + 1) (by omega) (by omega)
    rw [hcount, hc]
    exact ⟨rfl, by omega⟩

/-- C16 amended, at a concrete input: the `Render` call on `readyRenderer`
with a photon pass that writes (1, 1, 1) returns and displays, and its display pass
divides by 1. -/
theorem display_divisor_positive_witness :
    0 ≤ readyRenderer.currentSampleNumber ∧
    ∃ (r : PhotonVolumeObject.RenderResult) (d : Display),
      PhotonVolumeObject.RenderWithIntCast readyRenderer identityMatrix identityMatrix
        (constImage ⟨1, 1, 1⟩) = .ok r ∧
      r.displayed = some d ∧
      r.self.currentSampleNumber = 1 ∧
      PhotonVolumeObject.intCast r.self.currentSampleNumber = 1 ∧
      1 ≤ PhotonVolumeObject.intCast r.self.currentSampleNumber ∧
      d (0, 0) = PhotonVolumeObject.displayMain (r.self.frameBufferColorBuffer (0, 0)) 1 := by
  have h := display_divisor_positive readyRenderer readyRenderer_reachable
  refine ⟨h.1, _, _, rfl, rfl, ?_⟩
  obtain ⟨h1, h2, h3⟩ := h.2 identityMatrix identityMatrix (constImage ⟨1, 1, 1⟩) _ _ rfl rfl
  have h4 := h3 (by decide)
  refine ⟨h1, h4.1, h4.2, ?_⟩
  rw [h2 (0, 0), h4.1]
  rfl

/-- C16 fails as stated: the renderer `agedRenderer`, reachable from the
constructor by `2^31 - 1` calls of `Render`, has the count `2^31 - 1`; its
next `Render` call reaches the display pass with the count `2^31`, and
`(int)` of that count, the divisor, is `-2^31`, so the accumulated colour
(2, 2, 2) is displayed as `-1 / 2^30`.  After `2^32 - 1` calls
(`wrappedRenderer`) the divisor is 0. -/
theorem display_divisor_counterexample :
    PhotonVolumeObject.Reachable agedRenderer ∧
    agedRenderer.currentSampleNumber = 2 ^ 31 - 1 ∧
    (∃ (r : PhotonVolumeObject.RenderResult) (d : Display),
      PhotonVolumeObject.RenderWithIntCast agedRenderer identityMatrix identityMatrix
        (constImage ⟨1, 1, 1⟩) = .ok r ∧
      r.displayed = some d ∧
      r.self.currentSampleNumber = 2 ^ 31 ∧
      PhotonVolumeObject.intCast r.self.currentSampleNumber = -2 ^ 31 ∧
      ¬ 1 ≤ PhotonVolumeObject.intCast r.self.currentSampleNumber ∧
      d (0, 0) = ⟨-1 / 2 ^ 30, -1 / 2 ^ 30, -1 / 2 ^ 30, 1⟩) ∧
    PhotonVolumeObject.Reachable wrappedRenderer ∧
    (∃ (r : PhotonVolumeObject.RenderResult) (d : Display),
      PhotonVolumeObject.RenderWithIntCast wrappedRenderer identityMatrix identityMatrix
        (constImage ⟨1, 1, 1⟩) = .ok r ∧
      r.displayed = some d ∧
      PhotonVolumeObject.intCast r.self.currentSampleNumber = 0) := by
  refine ⟨counted_reachable 2147483647, rfl, ⟨_, _, rfl, rfl, rfl, ?_, ?_, ?_⟩,
    counted_reachable 4294967295, ⟨_, _, rfl, rfl, ?_⟩⟩
  · decide
  · decide
  · simp only [PhotonVolumeObject.RenderWithIntCast, agedRenderer, readyRenderer, freshRenderer,
      PhotonVolumeObject.SetVolumeTexture, PhotonVolumeObject.Init,
      PhotonVolumeObject.construct, rawObject, constImage, PhotonVolumeObject.displayMain,
      PhotonVolumeObject.intCast]
    norm_num [Vec3.scale, Vec3.divScalar, constImage]
  · decide


/-! ### The march budget (C13) -/

/-- The march loop executes at most `fuel` iterations. -/
theorem marchTrace_length_le (B : Builtins) (u : PhotonUniforms) (fragCoord : Vec2) (s : ℕ) :
    ∀ (fuel i : ℕ) (st : MarchState), (marchTrace B u fragCoord s fuel i st).length ≤ fuel := by
  intro fuel
  induction fuel with
  | zero => intro i st; simp [marchTrace]
  | succ fuel ih =>
    intro i st
    rw [marchTrace]
    split_ifs
    · simp
    · simp only [List.length_cons]
      exact Nat.succ_le_succ (ih _ _)

/-- The head of a march iteration leaves `finalColor` as it is. -/
theorem bounce_finalColor (B : Builtins) (u : PhotonUniforms) (fragCoord : Vec2) (s i : ℕ)
    (st : MarchState) : (bounce B u fragCoord s i st).finalColor = st.finalColor := by
  unfold bounce
  simp only []
  split_ifs <;> rfl

/-- When the iteration of index `n` is executed and does not pass the exit
test, a march loop of `n + 1` iterations returns `finalColor` as it was. -/
theorem march_exhausted (B : Builtins) (u : PhotonUniforms) (fragCoord : Vec2) (s : ℕ) :
    ∀ (n i : ℕ) (st last : MarchState),
      (marchTrace B u fragCoord s (n + 1) i st)[n]? = some last →
      outsideBox last.photonPos = false →
      march B u fragCoord s (n + 1) i st = st.finalColor := by
  intro n
  induction n with
  | zero =>
    intro i st last hget hin
    rw [march]
    rw [marchTrace] at hget
    by_cases hout : outsideBox ((bounce B u fragCoord s i st).photonPos
        + (bounce B u fragCoord s i st).photonDir.scale stepSize) = true
    · simp only [hout, if_true, List.getElem?_cons_zero, Option.some.injEq] at hget
      rw [← hget] at hin
      simp only [] at hin
      rw [hout] at hin
      exact absurd hin (by simp)
    · simp only [hout, Bool.false_eq_true, if_false, march, bounce_finalColor]
  | succ n ih =>
    intro i st last hget hin
    rw [march]
    rw [marchTrace] at hget
    by_cases hout : outsideBox ((bounce B u fragCoord s i st).photonPos
        + (bounce B u fragCoord s i st).photonDir.scale stepSize) = true
    · simp [hout] at hget
    · simp only [hout, Bool.false_eq_true, if_false, List.getElem?_cons_succ] at hget ⊢
      rw [ih (i + 1) _ last hget hin]
      exact bounce_finalColor B u fragCoord s i st

/-- C13: for every input of the photon fragment shader, the march loop of a
hit ray executes at most 800 iterations, and when the 800th iteration is
executed and leaves the photon position inside `[-0.5, 0.5]^3` on every axis,
the pixel's radiance estimate is exactly (0, 0, 0). -/
theorem march_budget (B : Builtins) (u : PhotonUniforms) (inp : PhotonFragment)
    (hhit : (mainHit B inp).hit = true) :
    (marchTrace B u inp.fragCoord 0 photonMarchCount 0 (marchInit B inp)).length ≤ 800 ∧
    ∀ last : MarchState,
      (marchTrace B u inp.fragCoord 0 photonMarchCount 0 (marchInit B inp))[799]? = some last →
      outsideBox last.photonPos = false →
      (main B u inp).xyz = 0 := by
  constructor
  · exact marchTrace_length_le B u inp.fragCoord 0 photonMarchCount 0 (marchInit B inp)
  · intro last hget hin
    rw [(main_hit B u inp hhit).1]
    exact march_exhausted B u inp.fragCoord 0 799 0 (marchInit B inp) last hget hin


/-- In a scene without surfaces, a march that stays in the box executes every
iteration of its budget, each one step further along the same direction. -/
theorem marchTrace_noSurface_stay (B : Builtins) (u : PhotonUniforms) (fragCoord : Vec2) (s : ℕ)
    (hns : ∀ pos, length B (FetchGradient u pos) ≤ u.gradientThreshold) :
    ∀ (fuel i : ℕ) (st : MarchState),
      (∀ k : ℕ, k < fuel →
        outsideBox (st.photonPos + st.photonDir.scale (stepSize * ((k : ℚ) + 1))) = false) →
      ∀ n : ℕ, n < fuel →
        (marchTrace B u fragCoord s fuel i st)[n]?
          = some { st with
              photonPos := st.photonPos + st.photonDir.scale (stepSize * ((n : ℚ) + 1)) } := by
  intro fuel
  induction fuel with
  | zero => intro i st _ n hn; exact absurd hn (Nat.not_lt_zero n)
  | succ fuel ih =>
    intro i st hin n hn
    have e0 : st.photonPos + st.photonDir.scale stepSize
        = st.photonPos + st.photonDir.scale (stepSize * (((0 : ℕ) : ℚ) + 1)) := by
      ext <;> simp
    have h0 : outsideBox (st.photonPos + st.photonDir.scale stepSize) = false := by
      rw [e0]; exact hin 0 (Nat.succ_pos fuel)
    rw [marchTrace, bounce_noSurface B u fragCoord s i st (hns _)]
    simp only [h0, Bool.false_eq_true, if_false]
    cases n with
    | zero =>
      simp only [List.getElem?_cons_zero]
      rw [e0]
    | succ n =>
      simp only [List.getElem?_cons_succ]
      rw [ih (i + 1) _ (by
        intro k hk
        simp only []; rw [straight_step]; exact hin (k + 1) (Nat.succ_lt_succ hk)) n
        (Nat.lt_of_succ_lt_succ hn)]
      simp only []
      rw [straight_step]

/-- C13, at a concrete input: in the scene `emptyScene (1, 1, 1)` the march of
`diagonalFragment` executes its 800th iteration, which leaves the photon
inside the box, and the estimate is black. -/
theorem march_budget_witness :
    (marchTrace refBuiltins (emptyScene ⟨1, 1, 1⟩) diagonalFragment.fragCoord 0 photonMarchCount 0
      (marchInit refBuiltins diagonalFragment)).length ≤ 800 ∧
    (∃ last : MarchState,
      (marchTrace refBuiltins (emptyScene ⟨1, 1, 1⟩) diagonalFragment.fragCoord 0
        photonMarchCount 0 (marchInit refBuiltins diagonalFragment))[799]? = some last ∧
      outsideBox last.photonPos = false) ∧
    (main refBuiltins (emptyScene ⟨1, 1, 1⟩) diagonalFragment).xyz = 0 := by
  have h := march_budget refBuiltins (emptyScene ⟨1, 1, 1⟩) diagonalFragment
    (by rw [diagonal_hit])
  have hget := marchTrace_noSurface_stay refBuiltins (emptyScene ⟨1, 1, 1⟩)
    diagonalFragment.fragCoord 0 (emptyScene_noSurface ⟨1, 1, 1⟩) photonMarchCount 0
    (marchInit refBuiltins diagonalFragment) diagonal_stays 799 (by decide)
  have hin := diagonal_stays 799 (by decide)
  exact ⟨h.1, ⟨_, hget, hin⟩, h.2 _ hget hin⟩


/-! ### The slab test (C14) -/

/-- GLSL `min` on finite values is the minimum. -/
theorem xrat_min_fin (a b : ℚ) : XRat.min (XRat.fin a) (XRat.fin b) = XRat.fin (min a b) := by
  simp only [XRat.min, XRat.lt, decide_eq_true_eq]
  by_cases h : b < a
  · simp [h, min_eq_right h.le]
  · simp [h, min_eq_left (not_lt.mp h)]

/-- GLSL `max` on finite values is the maximum. -/
theorem xrat_max_fin (a b : ℚ) : XRat.max (XRat.fin a) (XRat.fin b) = XRat.fin (max a b) := by
  simp only [XRat.max, XRat.lt, decide_eq_true_eq]
  by_cases h : a < b
  · simp [h, max_eq_right h.le]
  · simp [h, max_eq_left (not_lt.mp h)]

/-- The slab of one axis: the point `o + d * t` is between the two planes
exactly for `t` between the two plane distances. -/
theorem slab_axis (o d t : ℚ) (hd : d ≠ 0) :
    (-1 / 2 ≤ o + d * t ∧ o + d * t ≤ 1 / 2) ↔
      (min ((-1 / 2 - o) * (1 / d)) ((1 / 2 - o) * (1 / d)) ≤ t ∧
        t ≤ max ((-1 / 2 - o) * (1 / d)) ((1 / 2 - o) * (1 / d))) := by
  rcases lt_or_gt_of_ne hd with hneg | hpos
  · have h12 : (1 / 2 - o) * (1 / d) ≤ (-1 / 2 - o) * (1 / d) := by
      rw [mul_one_div, mul_one_div, div_le_div_right_of_neg hneg]; linarith
    rw [min_eq_right h12, max_eq_left h12, mul_one_div, mul_one_div, div_le_iff_of_neg hneg,
      le_div_iff_of_neg hneg]
    constructor
    · rintro ⟨h1, h2⟩; constructor <;> linarith
    · rintro ⟨h1, h2⟩; constructor <;> linarith
  · have h12 : (-1 / 2 - o) * (1 / d) ≤ (1 / 2 - o) * (1 / d) := by
      rw [mul_one_div, mul_one_div, div_le_div_iff_of_pos_right hpos]; linarith
    rw [min_eq_left h12, max_eq_right h12, mul_one_div, mul_one_div, div_le_iff₀ hpos,
      le_div_iff₀ hpos]
    constructor
    · rintro ⟨h1, h2⟩; constructor <;> linarith
    · rintro ⟨h1, h2⟩; constructor <;> linarith


/-- The slab test for a direction without zero component, in rationals: the
entry distance `tmin`, the exit distance `tmax`, and the result. -/
theorem slab_test_finite (o d : Vec3) (dist : ℚ) (hx : d.x ≠ 0) (hy : d.y ≠ 0) (hz : d.z ≠ 0) :
    RayAABBIntersect o ⟨XRat.recip d.x, XRat.recip d.y, XRat.recip d.z⟩
        ⟨-1 / 2, -1 / 2, -1 / 2⟩ ⟨1 / 2, 1 / 2, 1 / 2⟩ dist
      = { hit :=
            decide (max 0
              (max (max
                (min ((-1 / 2 - o.x) * (1 / d.x)) ((1 / 2 - o.x) * (1 / d.x)))
                (min ((-1 / 2 - o.y) * (1 / d.y)) ((1 / 2 - o.y) * (1 / d.y))))
                (min ((-1 / 2 - o.z) * (1 / d.z)) ((1 / 2 - o.z) * (1 / d.z))))
              ≤ min (min
                (max ((-1 / 2 - o.x) * (1 / d.x)) ((1 / 2 - o.x) * (1 / d.x)))
                (max ((-1 / 2 - o.y) * (1 / d.y)) ((1 / 2 - o.y) * (1 / d.y))))
                (max ((-1 / 2 - o.z) * (1 / d.z)) ((1 / 2 - o.z) * (1 / d.z)))) &&
            decide (max (max
                (min ((-1 / 2 - o.x) * (1 / d.x)) ((1 / 2 - o.x) * (1 / d.x)))
                (min ((-1 / 2 - o.y) * (1 / d.y)) ((1 / 2 - o.y) * (1 / d.y))))
                (min ((-1 / 2 - o.z) * (1 / d.z)) ((1 / 2 - o.z) * (1 / d.z))) < dist)
          dist := XRat.fin
            (max (max
              (min ((-1 / 2 - o.x) * (1 / d.x)) ((1 / 2 - o.x) * (1 / d.x)))
              (min ((-1 / 2 - o.y) * (1 / d.y)) ((1 / 2 - o.y) * (1 / d.y))))
              (min ((-1 / 2 - o.z) * (1 / d.z)) ((1 / 2 - o.z) * (1 / d.z)))) } := by
  simp only [RayAABBIntersect, XRat.recip, hx, hy, hz, if_false, XRat.mulFin, xrat_min_fin,
    xrat_max_fin, XRat.ge, XRat.lt]

/-- A point of the ray is in the closed box exactly when its parameter is
between the entry and the exit distance of the slab test. -/
theorem inClosedBox_iff (o d : Vec3) (t : ℚ) (hx : d.x ≠ 0) (hy : d.y ≠ 0) (hz : d.z ≠ 0) :
    inClosedBox (o + d.scale t) ↔
      (max (max
          (min ((-1 / 2 - o.x) * (1 / d.x)) ((1 / 2 - o.x) * (1 / d.x)))
          (min ((-1 / 2 - o.y) * (1 / d.y)) ((1 / 2 - o.y) * (1 / d.y))))
          (min ((-1 / 2 - o.z) * (1 / d.z)) ((1 / 2 - o.z) * (1 / d.z))) ≤ t ∧
        t ≤ min (min
          (max ((-1 / 2 - o.x) * (1 / d.x)) ((1 / 2 - o.x) * (1 / d.x)))
          (max ((-1 / 2 - o.y) * (1 / d.y)) ((1 / 2 - o.y) * (1 / d.y))))
          (max ((-1 / 2 - o.z) * (1 / d.z)) ((1 / 2 - o.z) * (1 / d.z)))) := by
  simp only [inClosedBox, Vec3.add_x, Vec3.add_y, Vec3.add_z, Vec3.scale_x, Vec3.scale_y,
    Vec3.scale_z, slab_axis o.x d.x t hx, slab_axis o.y d.y t hy, slab_axis o.z d.z t hz,
    max_le_iff, le_min_iff]
  tauto

/-- C14: for every ray origin and every direction whose three components are
all non-zero, `RayAABBIntersect` on the box `[-0.5, 0.5]^3` with
`rayDirInv = 1 / direction` returns a finite `tmin` as `dist`, and `hit = true`
if and only if `tmin < 1e10` and there is some `t >= 0` with
`origin + t * direction` in the closed box; and when `hit` is true with
`tmin >= 0`, the point `origin + tmin * direction` lies in the closed box and
no smaller `t >= 0` does. -/
theorem slab_test_correct (o d : Vec3) (hx : d.x ≠ 0) (hy : d.y ≠ 0) (hz : d.z ≠ 0) :
    ∃ tmin : ℚ,
      (RayAABBIntersect o ⟨XRat.recip d.x, XRat.recip d.y, XRat.recip d.z⟩
          ⟨-1 / 2, -1 / 2, -1 / 2⟩ ⟨1 / 2, 1 / 2, 1 / 2⟩ BIGNUM).dist = XRat.fin tmin ∧
      ((RayAABBIntersect o ⟨XRat.recip d.x, XRat.recip d.y, XRat.recip d.z⟩
          ⟨-1 / 2, -1 / 2, -1 / 2⟩ ⟨1 / 2, 1 / 2, 1 / 2⟩ BIGNUM).hit = true ↔
        tmin < BIGNUM ∧ ∃ t : ℚ, 0 ≤ t ∧ inClosedBox (o + d.scale t)) ∧
      ((RayAABBIntersect o ⟨XRat.recip d.x, XRat.recip d.y, XRat.recip d.z⟩
          ⟨-1 / 2, -1 / 2, -1 / 2⟩ ⟨1 / 2, 1 / 2, 1 / 2⟩ BIGNUM).hit = true →
        0 ≤ tmin →
        inClosedBox (o + d.scale tmin) ∧
        ∀ t : ℚ, 0 ≤ t → t < tmin → ¬ inClosedBox (o + d.scale t)) := by
  rw [slab_test_finite o d BIGNUM hx hy hz]
  refine ⟨_, rfl, ?_, ?_⟩
  · simp only [Bool.and_eq_true, decide_eq_true_eq]
    constructor
    · rintro ⟨hle, hlt⟩
      have hin := (inClosedBox_iff o d _ hx hy hz).mpr ⟨le_max_right 0 _, hle⟩
      exact ⟨hlt, _, le_max_left _ _, hin⟩
    · rintro ⟨hlt, t, ht0, ht⟩
      rw [inClosedBox_iff o d t hx hy hz] at ht
      exact ⟨max_le (ht0.trans ht.2) (ht.1.trans ht.2), hlt⟩
  · simp only [Bool.and_eq_true, decide_eq_true_eq]
    rintro ⟨hle, -⟩ h0
    constructor
    · rw [inClosedBox_iff o d _ hx hy hz]
      exact ⟨le_rfl, (le_max_right _ _).trans hle⟩
    · intro t _ hlt hin
      rw [inClosedBox_iff o d t hx hy hz] at hin
      exact absurd hin.1 (not_le.mpr hlt)

/-- The slab test on the ray from (-2, -2, -2) along (1, 1, 1): a hit at
distance 3/2. -/
theorem slab_corner_ray_hits :
    RayAABBIntersect ⟨-2, -2, -2⟩ ⟨XRat.recip 1, XRat.recip 1, XRat.recip 1⟩
      ⟨-1 / 2, -1 / 2, -1 / 2⟩ ⟨1 / 2, 1 / 2, 1 / 2⟩ BIGNUM
      = { hit := true, dist := XRat.fin (3 / 2) } := by
  norm_num [RayAABBIntersect, XRat.recip, XRat.mulFin, XRat.min, XRat.max, XRat.lt, XRat.ge,
    BIGNUM]

/-- C14, at a concrete input: the ray from (-2, -2, -2) along (1, 1, 1) hits
the box at distance 3/2; the point at that distance is in the closed box and
no point at a smaller distance `t >= 0` is. -/
theorem slab_test_correct_witness :
    inClosedBox ((⟨-2, -2, -2⟩ : Vec3) + Vec3.scale ⟨1, 1, 1⟩ (3 / 2)) ∧
    ∀ t : ℚ, 0 ≤ t → t < 3 / 2 →
      ¬ inClosedBox ((⟨-2, -2, -2⟩ : Vec3) + Vec3.scale ⟨1, 1, 1⟩ t) := by
  obtain ⟨tmin, hdist, -, hentry⟩ :=
    slab_test_correct ⟨-2, -2, -2⟩ ⟨1, 1, 1⟩ (by norm_num) (by norm_num) (by norm_num)
  rw [slab_corner_ray_hits] at hdist hentry
  have htmin : tmin = 3 / 2 := by
    simp only [XRat.fin.injEq] at hdist
    exact hdist.symm
  subst htmin
  exact hentry rfl (by norm_num)

/-! ### Hemisphere sampling (C15) -/

/-- The truncated square root of a square of a multiple of `2 ^ (-10)`. -/
theorem truncBuiltins_sqrt_sq (k : ℕ) :
    truncBuiltins.sqrt ((k : ℚ) / 2 ^ 10 * ((k : ℚ) / 2 ^ 10)) = (k : ℚ) / 2 ^ 10 := by
  have e : (k : ℚ) / 2 ^ 10 * ((k : ℚ) / 2 ^ 10) * 4 ^ 10 = ((k * k : ℕ) : ℚ) := by
    push_cast
    rw [div_mul_div_comm, div_mul_eq_mul_div, div_eq_iff (by norm_num)]
    norm_num
  simp only [truncBuiltins, e, Nat.floor_natCast, Nat.sqrt_eq]

/-- The truncated square root of 1/4 is 1/2. -/
theorem truncBuiltins_sqrt_quarter : truncBuiltins.sqrt (1 / 4) = 1 / 2 := by
  have h := truncBuiltins_sqrt_sq 512
  norm_num at h
  exact h

/-- In `surfaceScene` the gradient has length 1/2 everywhere. -/
theorem surfaceScene_length (pos : Vec3) :
    length truncBuiltins (FetchGradient surfaceScene pos) = 1 / 2 := by
  have hg : FetchGradient surfaceScene pos = ⟨0, 0, -1 / 2⟩ := by
    ext <;> norm_num [FetchGradient, surfaceScene, Vec4.xyz]
  have hd : Vec3.dot (⟨0, 0, -1 / 2⟩ : Vec3) ⟨0, 0, -1 / 2⟩ = 1 / 4 := by
    norm_num [Vec3.dot]
  rw [hg]
  simp only [length, hd, truncBuiltins_sqrt_quarter]

/-- In `surfaceScene` the gradient normal is (0, 0, -1) everywhere. -/
theorem surfaceScene_normal (pos : Vec3) :
    normalize truncBuiltins (FetchGradient surfaceScene pos) = ⟨0, 0, -1⟩ := by
  have hg : FetchGradient surfaceScene pos = ⟨0, 0, -1 / 2⟩ := by
    ext <;> norm_num [FetchGradient, surfaceScene, Vec4.xyz]
  have hl := surfaceScene_length pos
  simp only [normalize, hl]
  rw [hg]
  ext <;> norm_num

/-- C18, at a concrete input: in `surfaceScene` the march state `entryState`
faces a surface, so the bounce of index 0 is taken; its new direction comes
from the seed vector (0, 0), and other host random scalars give the same
state. -/
theorem first_bounce_seed_witness :
    (bounce truncBuiltins surfaceScene ⟨1 / 2, 1 / 2⟩ 0 0 entryState).photonDir
      = RandomUnitHemi truncBuiltins
          ⟨(RandomVec2 truncBuiltins ⟨1 / 2, 1 / 2⟩ ⟨0, 0⟩).x * 2 - 1,
           (RandomVec2 truncBuiltins ⟨1 / 2, 1 / 2⟩ ⟨0, 0⟩).y * 2 - 1⟩
          (normalize truncBuiltins (FetchGradient surfaceScene entryState.photonPos)) ∧
    bounce truncBuiltins { surfaceScene with randomFloat0 := 1 / 8, randomFloat1 := 7 / 8 }
        ⟨1 / 2, 1 / 2⟩ 0 0 entryState
      = bounce truncBuiltins surfaceScene ⟨1 / 2, 1 / 2⟩ 0 0 entryState := by
  have h := first_bounce_seed truncBuiltins surfaceScene ⟨1 / 2, 1 / 2⟩ entryState
  refine ⟨h.1 ?_ ?_, h.2.2 (1 / 8) (7 / 8)⟩
  · rw [surfaceScene_length]; norm_num [surfaceScene]
  · left
    rw [surfaceScene_normal]
    norm_num [Vec3.dot, entryState]

/-- C19, at a concrete input: in `surfaceScene`, with the LUT alpha set to 0,
brightness 5 and contrast 7, the ray of `axisFragment` gets the same
colour. -/
theorem estimate_ignores_alpha_brightness_contrast_witness :
    main truncBuiltins
        { surfaceScene with
          brightness := 5
          contrast := 7
          lutTexture := fun _ => ⟨1 / 2, 1 / 2, 1 / 2, 0⟩ } axisFragment
      = main truncBuiltins surfaceScene axisFragment :=
  estimate_ignores_alpha_brightness_contrast truncBuiltins surfaceScene axisFragment 5 7
    (fun _ => ⟨1 / 2, 1 / 2, 1 / 2, 0⟩) (fun _ => rfl)

end VolumetricRenderer
